import Mathlib

/-!
Verification development for the position execution and exit-management
engine of the Telegram_CT_V3 trading bot.

The Lean definitions below are a shallow embedding of the Python source:

* `src/trading.py` — `check_sell_conditions`, `check_multi_level_tp`,
  `check_enhanced_sell_conditions`, `sell_token_async`,
  `execute_swap_with_splitting`, `track_token_price` (watermark update);
* `src/jito.py` — `execute_swap_async`, `submit_transaction_parallel_async`;
* `src/config.py` — the configuration values and `Config.parse_tp_levels`.

Modelling conventions:

* Python floats are modelled as rationals (`ℚ`); every comparison the
  theorems rely on is exact at the chosen inputs, so no floating-point
  rounding artifact is load-bearing.
* Python f-string reasons are modelled as an inductive `Reason` carrying
  the numeric payloads that the corresponding format string interpolates.
* Mutation of the `tracking_data` dict is modelled by explicit state
  passing: functions that mutate return the updated `TrackingData`.
* `datetime.now()` is modelled by an explicit `now : ℚ` argument
  (seconds); `datetime` subtraction becomes rational subtraction.
* Network calls are modelled by explicit environments (records of
  oracles indexed by attempt number) quantified over in the theorems.
-/

namespace TelegramCT

/-- Exit reasons. Each constructor corresponds to one literal or f-string
returned by `check_sell_conditions` / `check_multi_level_tp` /
`check_enhanced_sell_conditions` in `src/trading.py`; payload fields are
the values the f-string interpolates. -/
inductive Reason where
  | tokenNotTracked : Reason
  | alreadySelling : Reason
  | multiTpDisabled : Reason
  | noTpLevelsHit : Reason
  | tpLevelReached (profit_target : ℚ) : Reason
  | volumeAlert : Reason
  | profitTargetReached (change target : ℚ) : Reason
  | profitTargetTrailingOnly : Reason
  | stopLossTriggered (change threshold : ℚ) : Reason
  | trailingStopTriggered (current stop exitRoi : ℚ) : Reason
  | maxHoldTimeReached (seconds : ℚ) : Reason
  | noSellConditionsMet : Reason
  deriving DecidableEq, Repr

/-- Sell decision: the `(should_sell, reason, sell_percentage)` triple
returned by the evaluator functions in `src/trading.py`. -/
structure Decision where
  should_sell : Bool
  reason : Reason
  sell_percentage : ℚ
  deriving DecidableEq, Repr

/-- The per-position tracking dict created by `start_price_tracking`
(`src/trading.py`, lines 881-895).  `price_history` is omitted: none of
the embedded functions read it except for display/volume estimation. -/
structure TrackingData where
  buy_price : ℚ
  current_price : ℚ
  buy_time : ℚ
  last_check : ℚ
  high_price : ℚ
  low_price : ℚ
  percent_change : ℚ
  trailing_stop_price : ℚ
  tp_reached : Bool
  highest_roi : ℚ
  trailing_stop_roi : ℚ
  sold_percentage : ℚ
  deriving DecidableEq, Repr

/-- Fresh tracking data as initialised by `start_price_tracking`. -/
def TrackingData.init (buy_price now : ℚ) : TrackingData :=
  { buy_price := buy_price
    current_price := buy_price
    buy_time := now
    last_check := now
    high_price := buy_price
    low_price := buy_price
    percent_change := 0
    trailing_stop_price := 0
    tp_reached := false
    highest_roi := 0
    trailing_stop_roi := 0
    sold_percentage := 0 }

/-- The configuration values (from `src/config.py`) read by the embedded
functions.  `TP_LEVELS` holds the already-parsed level list (the output
of `Config.parse_tp_levels`, a list of `(sell-percentage, profit-trigger)`
pairs); `parseTpLevels` below models the parsing itself. -/
structure Config where
  PROFIT_TARGET : ℚ
  STOP_LOSS : ℚ
  TRAILING_STOP : ℚ
  MAX_HOLD_TIME : ℚ
  EXIT_STRATEGY : String
  ENABLE_MULTI_TP : Bool
  ENABLE_VOLUME_MONITORING : Bool
  TP_LEVELS : List (ℤ × ℚ)
  PRICE_IMPACT_WARNING : ℚ
  PRICE_IMPACT_ABORT : ℚ
  MAX_SWAP_RETRIES : ℕ
  SOL : String
  deriving DecidableEq, Repr

/-- The default configuration values of `src/config.py` (lines 47-108),
with `TP_LEVELS` in its parsed form. -/
def defaultConfig : Config :=
  { PROFIT_TARGET := 50
    STOP_LOSS := -20
    TRAILING_STOP := 15
    MAX_HOLD_TIME := 12 * 60 * 60
    EXIT_STRATEGY := "TRAILING_STOP"
    ENABLE_MULTI_TP := true
    ENABLE_VOLUME_MONITORING := true
    TP_LEVELS := [(25, 30), (25, 50), (25, 100), (25, 200)]
    PRICE_IMPACT_WARNING := 5
    PRICE_IMPACT_ABORT := 10
    MAX_SWAP_RETRIES := 5
    SOL := "So11111111111111111111111111111111111111112" }

/-- Split a character list on a separator character (the model of
Python's `str.split`, over `String.data` so that it evaluates inside
the kernel). -/
def splitOnChar (c : Char) : List Char → List (List Char)
  | [] => [[]]
  | x :: xs =>
    match splitOnChar c xs with
    | [] => [[x]]
    | y :: ys => if x = c then [] :: y :: ys else (x :: y) :: ys

/-- Parse a non-empty string of decimal digits (the model of Python's
`int(...)` on the unsigned entries the `TP_LEVELS` format uses). -/
def parseNat (s : List Char) : Option ℕ :=
  if s.isEmpty then none
  else s.foldl (fun acc ch => acc.bind fun n =>
    if ch.isDigit then some (n * 10 + (ch.toNat - 48)) else none) (some 0)

/-- One `pct:profit` entry of the `TP_LEVELS` string
(`Config.parse_tp_levels`, `src/config.py` lines 111-122).  The source
parses `pct` with `int` and `profit` with `float`; the shipped defaults
are integral, so both are parsed here as decimal naturals (a malformed
entry, skipped by the source's `':' in level` guard, yields `none`). -/
def parseTpLevel (entry : List Char) : Option (ℤ × ℚ) :=
  match splitOnChar ':' entry with
  | [p, t] =>
    match parseNat p, parseNat t with
    | some pi, some ti => some ((pi : ℤ), (ti : ℚ))
    | _, _ => none
  | _ => none

/-- `Config.parse_tp_levels`: split the configured string on commas and
parse each `pct:profit` entry. -/
def parseTpLevels (enabled : Bool) (s : String) : List (ℤ × ℚ) :=
  if ¬enabled then []
  else (splitOnChar ',' s.data).filterMap parseTpLevel

/-- The loop of `check_multi_level_tp` (`src/trading.py`, lines 276-284):
walk the level list accumulating the cumulative sell percentage; the
first level whose cumulative percentage exceeds `sold_so_far` and whose
profit trigger is at most `percent_change` fires, selling that level's
own `sell_pct`. -/
def multiTpLoop (sold_so_far percent_change : ℚ) :
    ℚ → List (ℤ × ℚ) → Decision
  | _, [] => ⟨false, .noTpLevelsHit, 0⟩
  | cumulative_sold, (sell_pct, profit_target) :: rest =>
    let c := cumulative_sold + (sell_pct : ℚ)
    if sold_so_far < c ∧ percent_change ≥ profit_target then
      ⟨true, .tpLevelReached profit_target, (sell_pct : ℚ)⟩
    else
      multiTpLoop sold_so_far percent_change c rest

/-- `check_multi_level_tp` (`src/trading.py`, lines 259-286). -/
def checkMultiLevelTp (cfg : Config) (d : TrackingData) : Decision :=
  if ¬cfg.ENABLE_MULTI_TP then ⟨false, .multiTpDisabled, 0⟩
  else multiTpLoop d.sold_percentage d.percent_change 0 cfg.TP_LEVELS

/-- The `high_roi` local of `check_sell_conditions` (`src/trading.py`,
line 952), computed from the high price at entry. -/
def highRoiOf (d : TrackingData) : ℚ :=
  (d.high_price - d.buy_price) / d.buy_price * 100

/-- Lines 956-960 of `src/trading.py`: under the trailing-stop strategy
with positive high-water ROI, recompute `trailing_stop_roi` and
`trailing_stop_price` from `high_roi`. -/
def trailingStopUpdate (cfg : Config) (d : TrackingData)
    (high_roi : ℚ) : TrackingData :=
  if cfg.EXIT_STRATEGY = "TRAILING_STOP" ∧ high_roi > 0 then
    { d with
      trailing_stop_roi := high_roi - cfg.TRAILING_STOP
      trailing_stop_price :=
        d.buy_price * (1 + (high_roi - cfg.TRAILING_STOP) / 100) }
  else d

/-- Lines 962-965 of `src/trading.py`: raise the high-price watermark
(storing the stale `high_roi` local in `highest_roi`). -/
def newHighUpdate (d : TrackingData) (current_price high_roi : ℚ) :
    TrackingData :=
  if current_price > d.high_price then
    { d with high_price := current_price, highest_roi := high_roi }
  else d

/-- Lines 972-977 of `src/trading.py`: when the profit target is
reached under the trailing-stop strategy and no stop is armed yet, arm
it from the current `percent_change`. -/
def lateArmUpdate (cfg : Config) (d : TrackingData)
    (percent_change : ℚ) : TrackingData :=
  if d.trailing_stop_price = 0 then
    { d with
      trailing_stop_price :=
        d.buy_price * (1 + (percent_change - cfg.TRAILING_STOP) / 100)
      trailing_stop_roi := percent_change - cfg.TRAILING_STOP
      tp_reached := true }
  else d

/-- Lines 986-990 of `src/trading.py`: in the trailing-stop check, arm
the stop from `high_roi` if it is still unarmed. -/
def tailArmUpdate (cfg : Config) (d : TrackingData) (high_roi : ℚ) :
    TrackingData :=
  if cfg.EXIT_STRATEGY = "TRAILING_STOP" ∧ high_roi > 0 ∧
      d.trailing_stop_price = 0 then
    { d with
      trailing_stop_price :=
        d.buy_price * (1 + (high_roi - cfg.TRAILING_STOP) / 100)
      trailing_stop_roi := high_roi - cfg.TRAILING_STOP }
  else d

/-- Tail of `check_sell_conditions` after the profit-target block
(`src/trading.py`, lines 981-1002): stop-loss, trailing stop (arming
via `tailArmUpdate` — the dict mutated there is the one returned on the
max-hold and no-condition paths as well), max hold time.  `high_roi` is
the line-952 local computed from the high price at entry (it is not
recomputed after the line-963 watermark update, exactly as in the
source). -/
def checkSellTail (cfg : Config) (d : TrackingData) (high_roi now : ℚ) :
    Decision × TrackingData :=
  if d.percent_change ≤ cfg.STOP_LOSS then
    (⟨true, .stopLossTriggered d.percent_change cfg.STOP_LOSS, 100⟩, d)
  else if cfg.EXIT_STRATEGY = "TRAILING_STOP" ∧ high_roi > 0 ∧
      (tailArmUpdate cfg d high_roi).current_price <
        (tailArmUpdate cfg d high_roi).trailing_stop_price then
    (⟨true,
      .trailingStopTriggered (tailArmUpdate cfg d high_roi).current_price
        (tailArmUpdate cfg d high_roi).trailing_stop_price
        (tailArmUpdate cfg d high_roi).trailing_stop_roi, 100⟩,
      tailArmUpdate cfg d high_roi)
  else if now - (tailArmUpdate cfg d high_roi).buy_time >
      cfg.MAX_HOLD_TIME then
    (⟨true,
      .maxHoldTimeReached (now - (tailArmUpdate cfg d high_roi).buy_time),
      100⟩, tailArmUpdate cfg d high_roi)
  else
    (⟨false, .noSellConditionsMet, 0⟩, tailArmUpdate cfg d high_roi)

/-- The state mutations of lines 956-965 of `src/trading.py`: the
trailing-stop recomputation followed by the watermark update (both
reading the `current_price`, `percent_change` and `high_roi` locals
captured at entry; `trailingStopUpdate` does not change them). -/
def watermarkStage (cfg : Config) (d : TrackingData) : TrackingData :=
  newHighUpdate (trailingStopUpdate cfg d (highRoiOf d)) d.current_price
    (highRoiOf d)

/-- `check_sell_conditions` (`src/trading.py`, lines 937-1002).
`tracked` models `token_address in Config.price_tracking`, `lock` models
`Config.auto_sell_locks[token_address]`, `now` models `datetime.now()`.
The returned `TrackingData` is the (possibly mutated) tracking dict.
Control flow as in the source: the early returns, the mutating blocks
(`watermarkStage`), the profit-target block — which under the
trailing-stop strategy only arms the stop (`lateArmUpdate`) and reports
no sell, and under any other strategy falls through — then stop-loss,
trailing stop and max-hold in `checkSellTail`. -/
def checkSellConditions (cfg : Config) (tracked lock : Bool)
    (d : TrackingData) (now : ℚ) : Decision × TrackingData :=
  if ¬tracked then (⟨false, .tokenNotTracked, 0⟩, d)
  else if lock then (⟨false, .alreadySelling, 0⟩, d)
  else if d.percent_change ≥ cfg.PROFIT_TARGET then
    if cfg.EXIT_STRATEGY = "FULL_TP" then
      (⟨true, .profitTargetReached d.percent_change cfg.PROFIT_TARGET,
        100⟩, watermarkStage cfg d)
    else if cfg.EXIT_STRATEGY = "TRAILING_STOP" then
      (⟨false, .profitTargetTrailingOnly, 0⟩,
        lateArmUpdate cfg (watermarkStage cfg d) d.percent_change)
    else
      checkSellTail cfg (watermarkStage cfg d) (highRoiOf d) now
  else
    checkSellTail cfg (watermarkStage cfg d) (highRoiOf d) now

/-- `check_enhanced_sell_conditions` (`src/trading.py`, lines 475-490).
`volumeAlert` is the result of `check_volume_conditions` (an oracle
input: that function aggregates the global `volume_history`, which is
outside the position state).  Multi-TP is consulted first, then volume,
then the base `check_sell_conditions`. -/
def checkEnhancedSellConditions (cfg : Config) (tracked lock : Bool)
    (d : TrackingData) (volumeAlert : Bool) (now : ℚ) :
    Decision × TrackingData :=
  if cfg.ENABLE_MULTI_TP ∧ (checkMultiLevelTp cfg d).should_sell then
    (checkMultiLevelTp cfg d, d)
  else if cfg.ENABLE_VOLUME_MONITORING ∧ volumeAlert then
    (⟨true, .volumeAlert, 100⟩, d)
  else
    checkSellConditions cfg tracked lock d now

/-- The `percent_change` computation of `track_token_price`
(`src/trading.py`, line 750). -/
def percentChangeOf (buy_price p : ℚ) : ℚ :=
  if buy_price > 0 then (p - buy_price) / buy_price * 100 else 0

/-- The high-watermark update of `track_token_price` (line 754). -/
def pollerHighUpdate (d : TrackingData) (p : ℚ) : TrackingData :=
  if p > d.high_price then { d with high_price := p } else d

/-- The low-watermark update of `track_token_price` (line 758). -/
def pollerLowUpdate (d : TrackingData) (p : ℚ) : TrackingData :=
  if p < d.low_price ∨ d.low_price = 0 then { d with low_price := p }
  else d

/-- The per-tick tracking update of `track_token_price`
(`src/trading.py`, lines 736-759): store the fetched price, recompute
`percent_change` from the buy price, and update the high/low
watermarks, all before the evaluator runs. -/
def trackerUpdate (d : TrackingData) (p now : ℚ) : TrackingData :=
  pollerLowUpdate
    (pollerHighUpdate
      { d with
        current_price := p
        last_check := now
        percent_change := percentChangeOf d.buy_price p } p) p

/-- One evaluator tick of the price-poller loop: tracker update followed
by `check_enhanced_sell_conditions` (`src/trading.py`, lines 736-765). -/
def tick (cfg : Config) (lock : Bool) (volumeAlert : Bool)
    (d : TrackingData) (p now : ℚ) : Decision × TrackingData :=
  checkEnhancedSellConditions cfg true lock (trackerUpdate d p now) volumeAlert now

/-- Run a sequence of evaluator ticks; each list entry is one fetched
price together with the wall-clock time and the volume-oracle answer of
that tick. -/
def runTicks (cfg : Config) (lock : Bool) (d : TrackingData)
    (inputs : List (ℚ × ℚ × Bool)) : TrackingData :=
  inputs.foldl (fun d i => (tick cfg lock i.2.2 d i.1 i.2.1).2) d

/-- A Jupiter quote, keeping the two fields `execute_swap_async` reads:
`outAmount` (raw integer units) and `priceImpactPct`. -/
structure Quote where
  outAmount : ℕ
  priceImpactPct : ℚ
  deriving DecidableEq, Repr

/-- The external outcomes of one attempt of `execute_swap_async`:
the quote, the swap-transaction build, the Jito preparation, the
signing, the parallel submission and the confirmation poll. -/
structure AttemptOutcome where
  quote : Option Quote
  swapTxOk : Bool
  prepOk : Bool
  signOk : Bool
  submit : Option String
  confirmed : Bool
  deriving DecidableEq, Repr

/-- Environment for the swap pipeline: the network's answers for each
attempt (indexed by `retry_count`). -/
def SwapEnv : Type := ℕ → AttemptOutcome

/-- The slippage (in basis points) requested from the quote API on a
given attempt: `int(slippage_percent * (1 + retry_count * 0.5) * 100)`
(`src/jito.py`, lines 469-470).  `int` truncation and `Int.floor` agree
for the non-negative slippages used everywhere. -/
def slippageBps (slippage_percent : ℚ) (retry_count : ℕ) : ℤ :=
  ⌊slippage_percent * (1 + (retry_count : ℚ) * (1 / 2)) * 100⌋

/-- One quote request issued by the pipeline: the trade amount, the
basis-point slippage sent to the API, and the `slippage_percent`
parameter of that attempt. -/
structure SwapCall where
  amount_in : ℕ
  slippage_bps : ℤ
  slippage_percent : ℚ
  deriving DecidableEq, Repr

/-- Result of `execute_swap_async`: the `(success, value)` pair the
source returns, plus the trace of quote requests the run issued (head =
first attempt), used to state retry-count properties. -/
structure SwapOutcome where
  success : Bool
  value : Option ℚ
  calls : List SwapCall
  deriving DecidableEq, Repr

/-- `execute_swap_async` (`src/jito.py`, lines 460-606).  Each branch
mirrors the source in order: quote failure (retry), the price-impact
abort (nested inside the warning check, non-retryable), the dust check
with 80% amount reduction (`int(amount_in * 0.8)` = `amount_in * 4 / 5`
for the exactly-representable products that occur), build/prepare/sign
failures (plain retries), submission failure (plain retry), and the
confirmation branch (success computes price-per-token for buys and SOL
proceeds for sells; an unconfirmed transaction retries with
`slippage_percent * 1.5`). -/
def executeSwapAsync (cfg : Config) (env : SwapEnv)
    (input_mint output_mint : String) (amount_in : ℕ)
    (slippage_percent : ℚ) (retry_count max_retries : ℕ) : SwapOutcome :=
  let call : SwapCall :=
    ⟨amount_in, slippageBps slippage_percent retry_count, slippage_percent⟩
  let o := env retry_count
  match o.quote with
  | none =>
    if h : retry_count < max_retries then
      let r := executeSwapAsync cfg env input_mint output_mint amount_in
        slippage_percent (retry_count + 1) max_retries
      ⟨r.success, r.value, call :: r.calls⟩
    else ⟨false, none, [call]⟩
  | some q =>
    let in_amount : ℚ := (amount_in : ℚ) / 1000000000
    let out_amount : ℚ := (q.outAmount : ℚ) / 1000000000
    let price_impact := q.priceImpactPct
    if price_impact > cfg.PRICE_IMPACT_WARNING ∧
        price_impact > cfg.PRICE_IMPACT_ABORT then
      ⟨false, none, [call]⟩
    else
      let reduced := amount_in * 4 / 5
      if h : (output_mint = cfg.SOL ∧ out_amount < 5 / 1000) ∧
          (input_mint ≠ cfg.SOL ∧ retry_count < max_retries ∧ 0 < reduced) then
        let r := executeSwapAsync cfg env input_mint output_mint reduced
          slippage_percent (retry_count + 1) max_retries
        ⟨r.success, r.value, call :: r.calls⟩
      else if output_mint = cfg.SOL ∧ out_amount < 5 / 1000 ∧
          max_retries ≤ retry_count then
        ⟨false, none, [call]⟩
      else if ¬(o.swapTxOk ∧ o.prepOk ∧ o.signOk ∧ o.submit.isSome) then
        if h : retry_count < max_retries then
          let r := executeSwapAsync cfg env input_mint output_mint amount_in
            slippage_percent (retry_count + 1) max_retries
          ⟨r.success, r.value, call :: r.calls⟩
        else ⟨false, none, [call]⟩
      else if o.confirmed then
        if input_mint = cfg.SOL then
          ⟨true, some (if out_amount > 0 then in_amount / out_amount else 0),
            [call]⟩
        else ⟨true, some out_amount, [call]⟩
      else
        if h : retry_count < max_retries then
          let r := executeSwapAsync cfg env input_mint output_mint amount_in
            (slippage_percent * (3 / 2)) (retry_count + 1) max_retries
          ⟨r.success, r.value, call :: r.calls⟩
        else ⟨false, none, [call]⟩
  termination_by max_retries - retry_count
  decreasing_by
  · omega
  · omega
  · omega
  · omega

/-- Number of chunks chosen by `execute_swap_with_splitting` from the
quoted price impact (`src/trading.py`, lines 197-202). -/
def numChunksFor (price_impact : ℚ) : ℕ :=
  if price_impact > 5 then 4 else if price_impact > 3 then 3 else 2

/-- Size of chunk `i` in `execute_swap_with_splitting`
(`src/trading.py`, lines 212-216): the last chunk gets the integer
remainder. -/
def chunkAmount (amount_in chunk_size num_chunks i : ℕ) : ℕ :=
  if i = num_chunks - 1 then amount_in - chunk_size * (num_chunks - 1)
  else chunk_size

/-- One chunk execution inside `execute_swap_with_splitting`
(`src/trading.py`, lines 221-223): chunk `i` of the split order is sent
through `execute_swap_async` with the same mints and slippage,
`retry_count = 0`, and the default retry budget. -/
def chunkRun (cfg : Config) (chunkEnv : ℕ → SwapEnv)
    (input_mint output_mint : String) (amount_in : ℕ)
    (slippage_percent : ℚ) (q : Quote) (i : ℕ) : SwapOutcome :=
  executeSwapAsync cfg (chunkEnv i) input_mint output_mint
    (chunkAmount amount_in (amount_in / numChunksFor q.priceImpactPct)
      (numChunksFor q.priceImpactPct) i)
    slippage_percent 0 cfg.MAX_SWAP_RETRIES

/-- `execute_swap_with_splitting` (`src/trading.py`, lines 184-256):
check the initial quote, split into 2-4 chunks by impact, execute each
chunk through `execute_swap_async` (each chunk with its own network
environment `chunkEnv i`), keep going past failed chunks, succeed iff at
least one chunk succeeded, and compute the average buy price or total
sell proceeds.  `quote0` is the initial `get_quote_async` answer. -/
def executeSwapWithSplitting (cfg : Config) (quote0 : Option Quote)
    (chunkEnv : ℕ → SwapEnv) (input_mint output_mint : String)
    (amount_in : ℕ) (slippage_percent : ℚ) : Bool × Option ℚ :=
  match quote0 with
  | none => (false, none)
  | some q =>
    let num_chunks := numChunksFor q.priceImpactPct
    let chunk_size := amount_in / num_chunks
    let results := (List.range num_chunks).foldl (fun acc i =>
      if (chunkRun cfg chunkEnv input_mint output_mint amount_in
          slippage_percent q i).success then
        acc ++ [(chunkRun cfg chunkEnv input_mint output_mint amount_in
          slippage_percent q i).value]
      else acc) ([] : List (Option ℚ))
    let successful_chunks := results.length
    if successful_chunks = 0 then (false, none)
    else
      let total_out : ℚ := results.foldl (fun t v => t + v.getD 0) 0
      if input_mint = cfg.SOL then
        let total_sol_in : ℕ := ((List.range successful_chunks).map
          (chunkAmount amount_in chunk_size num_chunks)).sum
        let avg := if total_out > 0 then
            ((total_sol_in : ℚ) / 1000000000) / total_out else 0
        (true, some avg)
      else (true, some total_out)

/-- `submit_transaction_parallel_async` (`src/jito.py`, lines 408-449),
modelled over completion times: `asyncio.wait(..., FIRST_COMPLETED)`
yields the earliest-completing task(s) as `done`; the loop takes the
first non-empty result among `done` (otherwise the signature stays
`None`), and the still-pending task is cancelled without being awaited.
`tJito`/`tRegular` are the completion times of the two send calls and
`rJito`/`rRegular` their results (`none` = the call failed or returned
nothing).  On an exact tie both tasks are in `done`; CPython's set order
is unspecified, and the model then examines the Jito task first (no
theorem below depends on the tie case). -/
def submitTransactionParallel (tJito tRegular : ℕ)
    (rJito rRegular : Option String) : Option String :=
  if tJito < tRegular then rJito
  else if tRegular < tJito then rRegular
  else
    match rJito with
    | some s => some s
    | none => rRegular

/-- Per-position state touched by `sell_token_async`: the token's entry
in `Config.auto_sell_locks` and its entry in `Config.price_tracking`
(`none` = not tracked / deleted). -/
structure PosState where
  lock : Bool
  tracking : Option TrackingData
  deriving DecidableEq, Repr

/-- Environment for `sell_token_async`, indexed by the nesting depth of
its retry recursion: token balance, the volume-oracle answer and clock
used by the exit-reason lookup, and the result of the
`execute_swap_async` / `execute_swap_with_splitting` call. -/
structure SellEnv where
  balance : ℕ → ℕ × ℚ
  volumeAlert : ℕ → Bool
  now : ℕ → ℚ
  swap : ℕ → Bool × Option ℚ

/-- The exit-reason lookup of `sell_token_async` (`src/trading.py`,
lines 544-548): when the token is tracked, `check_enhanced_sell_conditions`
runs — with the lock held — and its mutations land in the tracking
dict. -/
def exitReasonUpdate (cfg : Config) (env : SellEnv) (k : ℕ)
    (st : PosState) : PosState :=
  match st.tracking with
  | some d =>
    { st with
      tracking := some (checkEnhancedSellConditions cfg true true d
        (env.volumeAlert k) (env.now k)).2 }
  | none => st

/-- The post-sale bookkeeping of `sell_token_async` (`src/trading.py`,
lines 579-613): a partial sell adds `percentage` to `sold_percentage`;
a 100% sell deletes the position from `Config.price_tracking`. -/
def soldUpdate (st : PosState) (percentage : ℚ) : PosState :=
  if percentage < 100 then
    match st.tracking with
    | some d =>
      { st with
        tracking :=
          some { d with
            sold_percentage := d.sold_percentage + percentage } }
    | none => st
  else if percentage = 100 then { st with tracking := none }
  else st

/-- `sell_token_async` (`src/trading.py`, lines 503-643).  Returns the
source's boolean result, the final per-position state, and the number of
swap executions performed (`execute_swap_*` calls), used to state that a
guarded call performs none.  Mirrored behaviour: the early `False`
return while `auto_sell_locks[token]` is already `True`; the atomic
lock acquisition (no `await` between the check at line 509 and the
assignment at line 514); the percentage and balance guards; the
exit-reason lookup (which calls `check_enhanced_sell_conditions` while
the lock is held); the `sold_percentage` update for partial sells and
tracking deletion for 100% sells; the one-shot retries at 5% slippage
and then at 50% percentage, each releasing the lock before the recursive
call; and the lock release on every return path. -/
def sellTokenAsync (cfg : Config) (env : SellEnv) (st : PosState)
    (percentage slippage : ℚ) (k : ℕ) : Bool × PosState × ℕ :=
  if st.lock then (false, st, 0)
  else if percentage < 1 ∨ percentage > 100 then
    (false, { st with lock := false }, 0)
  else if (env.balance k).1 = 0 then
    (false, { st with lock := false }, 0)
  else if (env.swap k).1 then
    (true,
      { soldUpdate (exitReasonUpdate cfg env k st) percentage with
        lock := false }, 1)
  else if h5 : slippage < 5 then
    let r := sellTokenAsync cfg env
      { exitReasonUpdate cfg env k st with lock := false }
      percentage 5 (k + 1)
    (r.1, r.2.1, 1 + r.2.2)
  else if h50 : percentage > 50 then
    let r := sellTokenAsync cfg env
      { exitReasonUpdate cfg env k st with lock := false }
      50 slippage (k + 1)
    (r.1, r.2.1, 1 + r.2.2)
  else (false, { exitReasonUpdate cfg env k st with lock := false }, 1)
  termination_by
    (if slippage < 5 then 1 else 0) + (if 50 < percentage then 1 else 0)
  decreasing_by
  · rw [if_neg (lt_irrefl (5 : ℚ)), if_pos h5]
    split_ifs <;> omega
  · rw [if_neg h5, if_neg (lt_irrefl (50 : ℚ)), if_pos h50]
    omega

/-- Program counter of one sell attempt in the lock protocol: before the
lock check, inside the guarded section, or returned. -/
inductive SellPc where
  | idle : SellPc
  | inCrit : SellPc
  | returned : SellPc
  deriving DecidableEq, Repr

/-- Global lock-protocol state for `n` concurrent sell attempts on one
token: the token's `auto_sell_locks` flag plus each attempt's program
counter. -/
structure LockSystem (n : ℕ) where
  lock : Bool
  pc : Fin n → SellPc

/-- Interleaving semantics of the per-token sell lock.  `acquire` is the
atomic check-and-set of `sell_token_async` lines 509-514 (atomic because
the Python code has no suspension point between the check and the
assignment, and asyncio tasks only interleave at suspension points);
`reject` is the early `False` return when the lock is held; `release`
covers every return path (each sets the flag back to `False`);
`restart` lets a finished attempt start a new one (e.g. the next
evaluator tick). -/
inductive LockStep (n : ℕ) : LockSystem n → LockSystem n → Prop where
  | acquire (s : LockSystem n) (i : Fin n) :
      s.pc i = .idle → s.lock = false →
      LockStep n s ⟨true, Function.update s.pc i .inCrit⟩
  | reject (s : LockSystem n) (i : Fin n) :
      s.pc i = .idle → s.lock = true →
      LockStep n s ⟨s.lock, Function.update s.pc i .returned⟩
  | release (s : LockSystem n) (i : Fin n) :
      s.pc i = .inCrit →
      LockStep n s ⟨false, Function.update s.pc i .returned⟩
  | restart (s : LockSystem n) (i : Fin n) :
      s.pc i = .returned →
      LockStep n s ⟨s.lock, Function.update s.pc i .idle⟩

/-- Initial lock-protocol state: lock free, every attempt idle. -/
def LockSystem.init (n : ℕ) : LockSystem n :=
  ⟨false, fun _ => .idle⟩

/-- States reachable by interleaving sell attempts from the initial
state. -/
inductive LockReachable (n : ℕ) : LockSystem n → Prop where
  | init : LockReachable n (LockSystem.init n)
  | step {s t : LockSystem n} :
      LockReachable n s → LockStep n s t → LockReachable n t

/-! ### Concrete fixtures used by counterexamples and witnesses -/

/-- Default configuration with multi-level TP disabled, as the
interactive menu configures the plain trailing-stop strategy
(`change_exit_strategy`, `src/config.py` lines 391-393). -/
def cfgTrailing : Config := { defaultConfig with ENABLE_MULTI_TP := false }

/-- Trailing-stop configuration whose profit target (100%) lies above
the scenario ROIs of claim C4. -/
def cfgTrailing100 : Config := { cfgTrailing with PROFIT_TARGET := 100 }

/-- Default configuration with the warning threshold above the abort
threshold. -/
def cfgWarnAbove : Config :=
  { defaultConfig with PRICE_IMPACT_WARNING := 20 }

/-- Network environment in which every attempt succeeds and the quote
reports 15% price impact and a 2-SOL-per-SOL output. -/
def envHappy : SwapEnv := fun _ =>
  { quote := some ⟨2000000000, 15⟩, swapTxOk := true, prepOk := true,
    signOk := true, submit := some "sig", confirmed := true }

/-- Network environment whose first quote reports a dust output
(0.004 SOL) and whose second quote is viable. -/
def envDust : SwapEnv := fun k =>
  if k = 0 then
    { quote := some ⟨4000000, 1⟩, swapTxOk := true, prepOk := true,
      signOk := true, submit := some "sig", confirmed := true }
  else
    { quote := some ⟨6000000, 1⟩, swapTxOk := true, prepOk := true,
      signOk := true, submit := some "sig", confirmed := true }

/-! ### C2 — price-impact abort -/

/-- Claim C2, counterexample.  The claim states that any quote with
impact above the configured abort threshold makes `execute_swap_async`
return `(False, None)` immediately.  In the source the abort check is
nested inside the `price_impact > PRICE_IMPACT_WARNING` block
(`src/jito.py` lines 496-500), so with warning threshold 20 and abort
threshold 10 a quote with impact 15 is NOT aborted: the swap proceeds
and succeeds. -/
theorem c2_counterexample :
    cfgWarnAbove.PRICE_IMPACT_ABORT = 10 ∧
    (envHappy 0).quote = some ⟨2000000000, 15⟩ ∧ (15 : ℚ) > 10 ∧
    executeSwapAsync cfgWarnAbove envHappy cfgWarnAbove.SOL "TOK"
      1000000000 1 0 5 =
      ⟨true, some (1 / 2), [⟨1000000000, 100, 1⟩]⟩ := by
  refine ⟨rfl, rfl, by norm_num, ?_⟩
  rw [executeSwapAsync]
  simp [envHappy, cfgWarnAbove, defaultConfig, slippageBps]
  norm_num

/-- Claim C2, amended: if the quoted price impact exceeds the abort
threshold AND the warning threshold (the abort check is nested inside
the warning check), `execute_swap_async` returns `(False, None)`
immediately, issuing exactly one quote request — zero retries — for any
remaining retry budget. -/
theorem c2_impact_abort_non_retryable (cfg : Config) (env : SwapEnv)
    (input_mint output_mint : String) (amount_in : ℕ)
    (slippage_percent : ℚ) (retry_count max_retries : ℕ) (q : Quote)
    (hq : (env retry_count).quote = some q)
    (habort : q.priceImpactPct > cfg.PRICE_IMPACT_ABORT)
    (hwarn : q.priceImpactPct > cfg.PRICE_IMPACT_WARNING) :
    executeSwapAsync cfg env input_mint output_mint amount_in
      slippage_percent retry_count max_retries =
      ⟨false, none,
        [⟨amount_in, slippageBps slippage_percent retry_count,
          slippage_percent⟩]⟩ := by
  rw [executeSwapAsync]
  simp [hq, habort, hwarn]

/-- Witness for `c2_impact_abort_non_retryable` at the default
configuration (warning 5, abort 10), impact 15, full retry budget. -/
theorem c2_witness :
    executeSwapAsync defaultConfig envHappy defaultConfig.SOL "TOK"
      1000000000 1 0 5 = ⟨false, none, [⟨1000000000, 100, 1⟩]⟩ := by
  have h := c2_impact_abort_non_retryable defaultConfig envHappy
    defaultConfig.SOL "TOK" 1000000000 1 0 5 ⟨2000000000, 15⟩ rfl
    (by norm_num [defaultConfig]) (by norm_num [defaultConfig])
  simpa [slippageBps] using h

/-! ### C6 — dual-channel race -/

/-- Claim C6, counterexample.  The claim states the race returns the
signature of whichever channel's send returns a NON-EMPTY result first
and returns `None` iff BOTH channels fail.  In the source
(`src/jito.py` lines 429-449) `asyncio.wait(..., FIRST_COMPLETED)`
yields only the earliest-COMPLETING task, whose result is taken even
when empty and the other task is cancelled: with the Jito channel
completing first at 50ms with no signature and the regular channel due
to succeed at 200ms, the submitter returns `None` although one channel
would have succeeded. -/
theorem c6_counterexample :
    submitTransactionParallel 50 200 none (some "B") = none ∧
    (some "B" : Option String) ≠ none := by
  exact ⟨rfl, by simp⟩

/-- Claim C6, amended: the race returns the result of whichever
channel COMPLETES first — its signature if non-empty, otherwise `None`
even when the slower channel would have produced one — and the slower
call is cancelled without being awaited further.  In particular, if
channel A resolves at 50ms with a signature and channel B at 200ms, the
returned signature is A's. -/
theorem c6_race_first_completion_wins :
    (∀ (tJ tR : ℕ) (rJ rR : Option String), tJ < tR →
      submitTransactionParallel tJ tR rJ rR = rJ) ∧
    (∀ (tJ tR : ℕ) (rJ rR : Option String), tR < tJ →
      submitTransactionParallel tJ tR rJ rR = rR) ∧
    submitTransactionParallel 50 200 (some "A") (some "B") = some "A" := by
  refine ⟨?_, ?_, rfl⟩
  · intro tJ tR rJ rR h
    simp [submitTransactionParallel, h]
  · intro tJ tR rJ rR h
    simp [submitTransactionParallel, h, Nat.lt_asymm h]

/-- Witness for `c6_race_first_completion_wins`: the regular channel
completing first at 30ms wins against Jito at 80ms. -/
theorem c6_witness :
    submitTransactionParallel 80 30 (some "J") (some "R") = some "R" :=
  c6_race_first_completion_wins.2.1 80 30 (some "J") (some "R")
    (by norm_num)

/-! ### C5 — multi-level take profit -/

/-- Modelled from the spec's decision rule, for comparison with the
source: find the first configured level whose profit trigger is at most
`percent_change` and whose cumulative sell percentage exceeds the sold
fraction; return that level's cumulative percentage, own percentage and
trigger. -/
def specFirstTpLevel (sold change : ℚ) :
    ℚ → List (ℤ × ℚ) → Option (ℚ × ℚ × ℚ)
  | _, [] => none
  | cum, (p, t) :: rest =>
    let c := cum + (p : ℚ)
    if t ≤ change ∧ sold < c then some (c, (p : ℚ), t)
    else specFirstTpLevel sold change c rest

/-- Claim C5, counterexample.  The claim states the evaluator sells the
DELTA between the firing level's cumulative percentage and the sold
fraction.  With the default levels, a sold fraction of 10% and
`percent_change = 35`, the first level (cumulative 25, trigger 30)
fires, the claimed delta is 15, but `check_multi_level_tp` returns the
level's own `sell_pct = 25` (`src/trading.py` lines 281-284). -/
theorem c5_counterexample :
    checkMultiLevelTp defaultConfig
      { TrackingData.init 1 0 with
        percent_change := 35, sold_percentage := 10 } =
      ⟨true, .tpLevelReached 30, 25⟩ ∧
    (25 : ℚ) ≠ 25 - 10 := by
  constructor
  · norm_num [checkMultiLevelTp, multiTpLoop, defaultConfig,
      TrackingData.init]
  · norm_num

/-- Claim C5, amended: on each tick the evaluator finds the first
configured level whose trigger is ≤ `percent_change` and whose
cumulative percentage exceeds the sold fraction, and signals selling
that level's OWN configured percentage (which equals the claimed delta
only when the sold fraction sits exactly on the preceding levels'
cumulative boundary).  With the default parsed levels
`[(25,30),(25,50),(25,100),(25,200)]`, a path reaching +35% sells 25%
and a later tick at +55% with 25% sold sells a further 25%, for 50%
total. -/
theorem c5_multi_tp_first_level_sells_level_percent :
    (∀ (sold change cum : ℚ) (ls : List (ℤ × ℚ)),
      multiTpLoop sold change cum ls =
        match specFirstTpLevel sold change cum ls with
        | none => ⟨false, .noTpLevelsHit, 0⟩
        | some (_, p, t) => ⟨true, .tpLevelReached t, p⟩) ∧
    parseTpLevels true "25:30,25:50,25:100,25:200" =
      [(25, 30), (25, 50), (25, 100), (25, 200)] ∧
    checkMultiLevelTp defaultConfig
      { TrackingData.init 1 0 with percent_change := 35 } =
      ⟨true, .tpLevelReached 30, 25⟩ ∧
    checkMultiLevelTp defaultConfig
      { TrackingData.init 1 0 with
        percent_change := 55, sold_percentage := 25 } =
      ⟨true, .tpLevelReached 50, 25⟩ ∧
    (25 : ℚ) + 25 = 50 := by
  refine ⟨?_, by rfl,
    by norm_num [checkMultiLevelTp, multiTpLoop, defaultConfig,
      TrackingData.init],
    by norm_num [checkMultiLevelTp, multiTpLoop, defaultConfig,
      TrackingData.init],
    by norm_num⟩
  intro sold change cum ls
  induction ls generalizing cum with
  | nil => rfl
  | cons hd tl ih =>
    obtain ⟨p, t⟩ := hd
    by_cases h : sold < cum + (p : ℚ) ∧ change ≥ t
    · have h' : t ≤ change ∧ sold < cum + (p : ℚ) := ⟨h.2, h.1⟩
      simp only [multiTpLoop, specFirstTpLevel, if_pos h, if_pos h']
    · have h' : ¬(t ≤ change ∧ sold < cum + (p : ℚ)) :=
        fun hc => h ⟨hc.2, hc.1⟩
      simp only [multiTpLoop, specFirstTpLevel, if_neg h, if_neg h']
      exact ih _

/-! ### C9 — evaluator purity -/

/-- The seven tracking fields `check_sell_conditions` never writes
agree between two states. -/
def sameFrame (a b : TrackingData) : Prop :=
  a.buy_price = b.buy_price ∧ a.current_price = b.current_price ∧
  a.buy_time = b.buy_time ∧ a.last_check = b.last_check ∧
  a.low_price = b.low_price ∧ a.percent_change = b.percent_change ∧
  a.sold_percentage = b.sold_percentage

theorem sameFrame_refl (a : TrackingData) : sameFrame a a :=
  ⟨rfl, rfl, rfl, rfl, rfl, rfl, rfl⟩

theorem sameFrame_trans {a b c : TrackingData} (h1 : sameFrame a b)
    (h2 : sameFrame b c) : sameFrame a c := by
  obtain ⟨x1, x2, x3, x4, x5, x6, x7⟩ := h1
  obtain ⟨y1, y2, y3, y4, y5, y6, y7⟩ := h2
  exact ⟨x1.trans y1, x2.trans y2, x3.trans y3, x4.trans y4,
    x5.trans y5, x6.trans y6, x7.trans y7⟩

theorem trailingStopUpdate_sameFrame (cfg : Config) (d : TrackingData)
    (hr : ℚ) : sameFrame (trailingStopUpdate cfg d hr) d := by
  unfold trailingStopUpdate
  split_ifs <;> exact sameFrame_refl _

theorem newHighUpdate_sameFrame (d : TrackingData) (p hr : ℚ) :
    sameFrame (newHighUpdate d p hr) d := by
  unfold newHighUpdate
  split_ifs <;> exact sameFrame_refl _

theorem lateArmUpdate_sameFrame (cfg : Config) (d : TrackingData)
    (pc : ℚ) : sameFrame (lateArmUpdate cfg d pc) d := by
  unfold lateArmUpdate
  split_ifs <;> exact sameFrame_refl _

theorem tailArmUpdate_sameFrame (cfg : Config) (d : TrackingData)
    (hr : ℚ) : sameFrame (tailArmUpdate cfg d hr) d := by
  unfold tailArmUpdate
  split_ifs <;> exact sameFrame_refl _

theorem watermarkStage_sameFrame (cfg : Config) (d : TrackingData) :
    sameFrame (watermarkStage cfg d) d :=
  sameFrame_trans (newHighUpdate_sameFrame _ _ _)
    (trailingStopUpdate_sameFrame _ _ _)

theorem checkSellTail_sameFrame (cfg : Config) (d : TrackingData)
    (hr now : ℚ) : sameFrame (checkSellTail cfg d hr now).2 d := by
  unfold checkSellTail
  split_ifs <;>
    first
      | exact sameFrame_refl _
      | exact tailArmUpdate_sameFrame cfg d hr

/-- Shared helper: an evaluation of `check_sell_conditions` never
writes the seven `sameFrame` fields. -/
theorem checkSellConditions_sameFrame (cfg : Config) (tracked lock : Bool)
    (d : TrackingData) (now : ℚ) :
    sameFrame (checkSellConditions cfg tracked lock d now).2 d := by
  unfold checkSellConditions
  split_ifs <;>
    first
      | exact sameFrame_refl _
      | exact watermarkStage_sameFrame cfg d
      | exact sameFrame_trans (lateArmUpdate_sameFrame _ _ _)
          (watermarkStage_sameFrame cfg d)
      | exact sameFrame_trans
          (checkSellTail_sameFrame cfg (watermarkStage cfg d) (highRoiOf d) now)
          (watermarkStage_sameFrame cfg d)

/-- Shared helper: the enhanced evaluator never writes
`sold_percentage`. -/
theorem checkEnhanced_sold_frame (cfg : Config) (tracked lock : Bool)
    (d : TrackingData) (va : Bool) (now : ℚ) :
    (checkEnhancedSellConditions cfg tracked lock d va now).2.sold_percentage =
      d.sold_percentage := by
  unfold checkEnhancedSellConditions
  split_ifs <;>
    first
      | rfl
      | exact (checkSellConditions_sameFrame cfg tracked lock d now).2.2.2.2.2.2

/-- Fixture for claim C9: a tracked position at +20% ROI with no armed
trailing stop. -/
def dNine : TrackingData :=
  { TrackingData.init 1 0 with
    current_price := 6 / 5, high_price := 6 / 5, percent_change := 20 }

set_option maxHeartbeats 1000000 in
/-- Claim C9, counterexample.  The claim states `check_sell_conditions`
is pure: decisions are independent of when it is evaluated and it does
not mutate the position data.  Evaluating `dNine` under the trailing
strategy (a) mutates the tracking dict (it arms
`trailing_stop_price := 1.05`, `src/trading.py` lines 986-990), and
(b) the max-hold check reads the clock (`datetime.now()`, line 998):
the same input yields no-sell at `now = 100` and a max-hold full exit
at `now = 50000`. -/
theorem c9_counterexample :
    (checkSellConditions cfgTrailing true false dNine 100).2.trailing_stop_price = 21 / 20 ∧
    dNine.trailing_stop_price = 0 ∧
    (checkSellConditions cfgTrailing true false dNine 100).2 ≠ dNine ∧
    (checkSellConditions cfgTrailing true false dNine 100).1.should_sell = false ∧
    (checkSellConditions cfgTrailing true false dNine 50000).1.should_sell = true := by
  have harm :
      (checkSellConditions cfgTrailing true false dNine 100).2.trailing_stop_price = 21 / 20 := by
    norm_num [checkSellConditions, checkSellTail, watermarkStage,
      trailingStopUpdate, newHighUpdate, lateArmUpdate, tailArmUpdate,
      highRoiOf, cfgTrailing, defaultConfig, dNine, TrackingData.init,
      String.reduceEq]
  refine ⟨harm, rfl, ?_, ?_, ?_⟩
  · intro h
    rw [h] at harm
    norm_num [dNine, TrackingData.init] at harm
  · norm_num [checkSellConditions, checkSellTail, watermarkStage,
      trailingStopUpdate, newHighUpdate, lateArmUpdate, tailArmUpdate,
      highRoiOf, cfgTrailing, defaultConfig, dNine, TrackingData.init,
      String.reduceEq]
  · norm_num [checkSellConditions, checkSellTail, watermarkStage,
      trailingStopUpdate, newHighUpdate, lateArmUpdate, tailArmUpdate,
      highRoiOf, cfgTrailing, defaultConfig, dNine, TrackingData.init,
      String.reduceEq]

/-- Claim C9, amended: `check_sell_conditions` is deterministic in
`(tracking data, config, evaluation time)` — it is embedded here as a
function of exactly those inputs — but it is not pure: it depends on
the evaluation time through the max-hold check and it mutates the
tracking data.  The mutation is confined to the watermark and
trailing-stop fields: `buy_price`, `current_price`, `buy_time`,
`last_check`, `low_price`, `percent_change` and `sold_percentage`
(`sameFrame`) are never written by an evaluation. -/
theorem c9_evaluator_frame (cfg : Config) (tracked lock : Bool)
    (d : TrackingData) (now : ℚ) :
    sameFrame (checkSellConditions cfg tracked lock d now).2 d :=
  checkSellConditions_sameFrame cfg tracked lock d now

/-! ### C4 — trailing-stop scenario -/

/-- The armed state after the first C4 tick: bought at 1.0, price risen
to 1.75 (ROI 75%), trailing stop armed at exit ROI 60% = price 1.60. -/
def dC4 : TrackingData := ⟨1, 7 / 4, 0, 10, 7 / 4, 1, 75, 8 / 5, false, 0, 60, 0⟩

set_option maxHeartbeats 1000000 in
/-- Claim C4, counterexample.  The claim states that with
`buy_price = 1.0` and `trail_gap = 15`, after a rise to ROI 75% (stop
armed at 1.60) a tick at ROI 58% (price 1.58) returns a full-exit sell
decision.  Under the spec's own default configuration
(`PROFIT_TARGET = 50`, `src/config.py` line 52) the tick at ROI 58
takes the `percent_change >= PROFIT_TARGET` branch first and returns
`(False, "Profit target reached but using trailing stop only", 0)` —
no sell (`src/trading.py` lines 968-978); the trailing-stop comparison
at line 993 is never reached. -/
theorem c4_counterexample :
    cfgTrailing.PROFIT_TARGET = 50 ∧ cfgTrailing.TRAILING_STOP = 15 ∧
    (checkSellConditions cfgTrailing true false
      (trackerUpdate (TrackingData.init 1 0) (7 / 4) 10) 10).2 = dC4 ∧
    dC4.trailing_stop_price = 8 / 5 ∧ dC4.trailing_stop_roi = 60 ∧
    (checkSellConditions cfgTrailing true false
      (trackerUpdate dC4 (79 / 50) 20) 20).1 =
      ⟨false, .profitTargetTrailingOnly, 0⟩ := by
  have hd1 : trackerUpdate (TrackingData.init 1 0) (7 / 4) 10 =
      ⟨1, 7 / 4, 0, 10, 7 / 4, 1, 75, 0, false, 0, 0, 0⟩ := by
    norm_num [trackerUpdate, pollerHighUpdate, pollerLowUpdate,
      percentChangeOf, TrackingData.init]
  have hd2 : trackerUpdate dC4 (79 / 50) 20 =
      ⟨1, 79 / 50, 0, 20, 7 / 4, 1, 58, 8 / 5, false, 0, 60, 0⟩ := by
    norm_num [trackerUpdate, pollerHighUpdate, pollerLowUpdate,
      percentChangeOf, dC4]
  rw [hd1, hd2]
  refine ⟨rfl, rfl, ?_, rfl, rfl, ?_⟩
  · norm_num [checkSellConditions, checkSellTail, watermarkStage,
      trailingStopUpdate, newHighUpdate, lateArmUpdate, tailArmUpdate,
      highRoiOf, cfgTrailing, defaultConfig, dC4, String.reduceEq]
    split_ifs with h <;> first | rfl | simp at h
  · norm_num [checkSellConditions, checkSellTail, watermarkStage,
      trailingStopUpdate, newHighUpdate, lateArmUpdate, tailArmUpdate,
      highRoiOf, cfgTrailing, defaultConfig, String.reduceEq]
    split_ifs with h <;> first | rfl | simp at h

set_option maxHeartbeats 1000000 in
/-- Claim C4, amended: the scenario holds provided the ROI at the
trigger tick lies below the configured profit target (and above the
stop-loss): under the trailing-stop strategy with `buy_price = 1.0`,
`trail_gap = 15`, `PROFIT_TARGET > 58` and `STOP_LOSS < 58`, the rise
to ROI 75% arms the stop at exit ROI 60% (price 1.60), and the tick at
ROI 58% (price 1.58) returns a full-exit decision (sell 100%) whose
reason carries the armed exit ROI 60%.  With the default
`PROFIT_TARGET = 50` the no-op profit-target branch swallows the exit
(see the counterexample). -/
theorem c4_trailing_scenario (cfg : Config)
    (h1 : cfg.EXIT_STRATEGY = "TRAILING_STOP")
    (h2 : cfg.TRAILING_STOP = 15)
    (h3 : 58 < cfg.PROFIT_TARGET)
    (h4 : cfg.STOP_LOSS < 58) :
    (checkSellConditions cfg true false
      (trackerUpdate (TrackingData.init 1 0) (7 / 4) 10) 10).2 = dC4 ∧
    (checkSellConditions cfg true false
      (trackerUpdate dC4 (79 / 50) 20) 20).1 =
      ⟨true, .trailingStopTriggered (79 / 50) (8 / 5) 60, 100⟩ := by
  have hd1 : trackerUpdate (TrackingData.init 1 0) (7 / 4) 10 =
      ⟨1, 7 / 4, 0, 10, 7 / 4, 1, 75, 0, false, 0, 0, 0⟩ := by
    norm_num [trackerUpdate, pollerHighUpdate, pollerLowUpdate,
      percentChangeOf, TrackingData.init]
  have hd2 : trackerUpdate dC4 (79 / 50) 20 =
      ⟨1, 79 / 50, 0, 20, 7 / 4, 1, 58, 8 / 5, false, 0, 60, 0⟩ := by
    norm_num [trackerUpdate, pollerHighUpdate, pollerLowUpdate,
      percentChangeOf, dC4]
  rw [hd1, hd2]
  constructor
  · by_cases hPT : ((75 : ℚ) ≥ cfg.PROFIT_TARGET)
    · norm_num [checkSellConditions, checkSellTail, watermarkStage,
        trailingStopUpdate, newHighUpdate, lateArmUpdate, tailArmUpdate,
        highRoiOf, h1, h2, hPT, String.reduceEq, dC4]
      split_ifs with h <;> first | rfl | simp at h
    · norm_num [checkSellConditions, checkSellTail, watermarkStage,
        trailingStopUpdate, newHighUpdate, lateArmUpdate, tailArmUpdate,
        highRoiOf, h1, h2, hPT, h4.not_le, String.reduceEq, dC4]
      split_ifs with h <;> first | rfl | simp at h
  · norm_num [checkSellConditions, checkSellTail, watermarkStage,
      trailingStopUpdate, newHighUpdate, lateArmUpdate, tailArmUpdate,
      highRoiOf, h1, h2, h3.not_le, h4.not_le, String.reduceEq, dC4]

set_option maxHeartbeats 1000000 in
/-- Witness for `c4_trailing_scenario` at the concrete configuration
with profit target 100. -/
theorem c4_witness :
    (checkSellConditions cfgTrailing100 true false
      (trackerUpdate (TrackingData.init 1 0) (7 / 4) 10) 10).2 = dC4 ∧
    (checkSellConditions cfgTrailing100 true false
      (trackerUpdate dC4 (79 / 50) 20) 20).1 =
      ⟨true, .trailingStopTriggered (79 / 50) (8 / 5) 60, 100⟩ :=
  c4_trailing_scenario cfgTrailing100 rfl rfl (by norm_num [cfgTrailing100, cfgTrailing, defaultConfig])
    (by norm_num [cfgTrailing100, cfgTrailing, defaultConfig])

/-! ### C10 — order splitting -/

theorem foldl_if_append {l : List ℕ} {acc : List (Option ℚ)}
    {P : ℕ → Bool} {v : ℕ → Option ℚ} :
    l.foldl (fun a i => if P i then a ++ [v i] else a) acc =
      acc ++ l.filterMap (fun i => if P i then some (v i) else none) := by
  induction l generalizing acc with
  | nil => simp
  | cons x xs ih => by_cases h : P x <;> simp [h, ih]

/-- Claim C10: `execute_swap_with_splitting` chooses 2-4 chunks from
the quoted impact (4 above 5%, 3 above 3%, else 2), returns
`(False, None)` when the initial quote fails, returns `(False, None)`
when every chunk's swap fails, and reports overall success with a price
as soon as AT LEAST one chunk succeeds — a partial fill where other
chunks failed is still a successful swap. -/
theorem c10_splitting_partial_fill_success (cfg : Config)
    (chunkEnv : ℕ → SwapEnv) (input_mint output_mint : String)
    (amount_in : ℕ) (slippage_percent : ℚ) (quote0 : Option Quote) :
    (quote0 = none →
      executeSwapWithSplitting cfg quote0 chunkEnv input_mint output_mint
        amount_in slippage_percent = (false, none)) ∧
    (∀ q : Quote, quote0 = some q →
      (2 ≤ numChunksFor q.priceImpactPct ∧
        numChunksFor q.priceImpactPct ≤ 4 ∧
        (5 < q.priceImpactPct → numChunksFor q.priceImpactPct = 4) ∧
        (3 < q.priceImpactPct → q.priceImpactPct ≤ 5 →
          numChunksFor q.priceImpactPct = 3) ∧
        (q.priceImpactPct ≤ 3 → numChunksFor q.priceImpactPct = 2)) ∧
      ((∀ i, i < numChunksFor q.priceImpactPct →
          (chunkRun cfg chunkEnv input_mint output_mint amount_in
            slippage_percent q i).success = false) →
        executeSwapWithSplitting cfg quote0 chunkEnv input_mint
          output_mint amount_in slippage_percent = (false, none)) ∧
      ((∃ i, i < numChunksFor q.priceImpactPct ∧
          (chunkRun cfg chunkEnv input_mint output_mint amount_in
            slippage_percent q i).success = true) →
        ∃ p : ℚ, executeSwapWithSplitting cfg quote0 chunkEnv input_mint
          output_mint amount_in slippage_percent = (true, some p))) := by
  constructor
  · intro h
    subst h
    rfl
  · intro q hq
    subst hq
    refine ⟨?_, ?_, ?_⟩
    · unfold numChunksFor
      split_ifs with h1 h2
      · exact ⟨by norm_num, by norm_num, fun _ => rfl,
          fun _ h' => absurd h1 (not_lt.mpr h'),
          fun h => absurd h1 (not_lt.mpr (by linarith))⟩
      · exact ⟨by norm_num, by norm_num, fun h => absurd h h1,
          fun _ _ => rfl, fun h => absurd h2 (not_lt.mpr h)⟩
      · exact ⟨by norm_num, by norm_num, fun h => absurd h h1,
          fun h _ => absurd h h2, fun _ => rfl⟩
    · intro hall
      have hres : (List.range (numChunksFor q.priceImpactPct)).foldl
          (fun a i =>
            if (chunkRun cfg chunkEnv input_mint output_mint amount_in
                slippage_percent q i).success then
              a ++ [(chunkRun cfg chunkEnv input_mint output_mint
                amount_in slippage_percent q i).value]
            else a) [] = [] := by
        rw [foldl_if_append, List.nil_append, List.filterMap_eq_nil]
        intro i hi
        rw [hall i (List.mem_range.mp hi)]
        rfl
      simp only [executeSwapWithSplitting, hres, List.length_nil]
      rfl
    · intro hex
      obtain ⟨i, hi, hs⟩ := hex
      have hne : (List.range (numChunksFor q.priceImpactPct)).foldl
          (fun a i =>
            if (chunkRun cfg chunkEnv input_mint output_mint amount_in
                slippage_percent q i).success then
              a ++ [(chunkRun cfg chunkEnv input_mint output_mint
                amount_in slippage_percent q i).value]
            else a) [] ≠ [] := by
        rw [foldl_if_append, List.nil_append]
        intro hnil
        rw [List.filterMap_eq_nil] at hnil
        have := hnil i (List.mem_range.mpr hi)
        rw [hs] at this
        simp at this
      have hlen := fun h => hne (List.length_eq_zero.mp h)
      simp only [executeSwapWithSplitting, if_neg hlen]
      split_ifs <;> exact ⟨_, rfl⟩

/-- Environment for the C10 witness: chunk 0 succeeds, every other
chunk fails at every attempt. -/
def chEnvOne : ℕ → SwapEnv := fun i => fun _ =>
  if i = 0 then
    { quote := some ⟨500000000, 1⟩, swapTxOk := true, prepOk := true,
      signOk := true, submit := some "sig", confirmed := true }
  else
    { quote := none, swapTxOk := false, prepOk := false, signOk := false,
      submit := none, confirmed := false }

/-- Witness for `c10_splitting_partial_fill_success`: with a 4%-impact
initial quote (3 chunks) and only the first chunk succeeding, the split
swap still reports success with a price. -/
theorem c10_witness :
    ∃ p : ℚ, executeSwapWithSplitting defaultConfig (some ⟨0, 4⟩)
      chEnvOne defaultConfig.SOL "TOK" 1000000000 1 = (true, some p) := by
  refine ((c10_splitting_partial_fill_success defaultConfig chEnvOne
    defaultConfig.SOL "TOK" 1000000000 1 (some ⟨0, 4⟩)).2 ⟨0, 4⟩
    rfl).2.2 ⟨0, by norm_num [numChunksFor], ?_⟩
  rw [chunkRun, executeSwapAsync]
  norm_num [chEnvOne, defaultConfig, chunkAmount, numChunksFor]

/-! ### C8 — dust retry -/

set_option maxHeartbeats 1000000 in
/-- Claim C8, counterexample.  The claim states the dust retry changes
only the amount and not the effective slippage.  On the concrete run
below (sell of a non-SOL asset, first quote output 0.004 SOL), the
retry does reduce the amount to 80%, but because the retry increments
`retry_count`, the second quote is requested at
`int(1 * (1 + 1 * 0.5) * 100) = 150` basis points instead of the first
attempt's 100 — the effective slippage escalates (`src/jito.py`, lines
469-470 and 507-511). -/
theorem c8_counterexample :
    (executeSwapAsync defaultConfig envDust "TOK" defaultConfig.SOL
      1000000000 1 0 5).calls =
      [⟨1000000000, 100, 1⟩, ⟨800000000, 150, 1⟩] ∧
    (150 : ℤ) ≠ 100 ∧ (800000000 : ℕ) = 1000000000 * 4 / 5 := by
  refine ⟨?_, by norm_num, by norm_num⟩
  rw [executeSwapAsync]
  simp [envDust, defaultConfig, slippageBps]
  norm_num
  rw [executeSwapAsync]
  simp [envDust, defaultConfig, slippageBps]
  norm_num

/-- Claim C8, amended: when a sell of a non-base asset quotes an output
below the 0.005-SOL dust threshold and retries remain (and the quote
did not hit the impact abort), `execute_swap_async` retries with the
amount reduced to 80% (`int(amount_in * 0.8)`) and the SAME
`slippage_percent` parameter — it does not switch to a slippage-only
retry — but the retry increments `retry_count`, so the effective
slippage requested from the quote API still escalates by the
attempt-based formula; it does not stay constant as the claim states. -/
theorem c8_dust_retry_amount_reduction (cfg : Config) (env : SwapEnv)
    (input_mint output_mint : String) (amount_in : ℕ)
    (slippage_percent : ℚ) (retry_count max_retries : ℕ) (q : Quote)
    (hq : (env retry_count).quote = some q)
    (himp : ¬(q.priceImpactPct > cfg.PRICE_IMPACT_WARNING ∧
      q.priceImpactPct > cfg.PRICE_IMPACT_ABORT))
    (hout : output_mint = cfg.SOL)
    (hdust : (q.outAmount : ℚ) / 1000000000 < 5 / 1000)
    (hin : input_mint ≠ cfg.SOL) (hrc : retry_count < max_retries)
    (hred : 0 < amount_in * 4 / 5) :
    executeSwapAsync cfg env input_mint output_mint amount_in
      slippage_percent retry_count max_retries =
      ⟨(executeSwapAsync cfg env input_mint output_mint
          (amount_in * 4 / 5) slippage_percent (retry_count + 1)
          max_retries).success,
        (executeSwapAsync cfg env input_mint output_mint
          (amount_in * 4 / 5) slippage_percent (retry_count + 1)
          max_retries).value,
        ⟨amount_in, slippageBps slippage_percent retry_count,
          slippage_percent⟩ ::
          (executeSwapAsync cfg env input_mint output_mint
            (amount_in * 4 / 5) slippage_percent (retry_count + 1)
            max_retries).calls⟩ ∧
    (0 ≤ slippage_percent →
      slippageBps slippage_percent retry_count ≤
        slippageBps slippage_percent (retry_count + 1)) := by
  constructor
  · rw [executeSwapAsync]
    simp [hq, himp, hout, hdust, hin, hrc, hred]
  · intro hs
    apply Int.floor_le_floor
    push_cast
    nlinarith [hs, Nat.cast_nonneg (α := ℚ) retry_count]

/-- Witness for `c8_dust_retry_amount_reduction` on the concrete dust
environment. -/
theorem c8_witness :
    executeSwapAsync defaultConfig envDust "TOK" defaultConfig.SOL
      1000000000 1 0 5 =
      ⟨(executeSwapAsync defaultConfig envDust "TOK" defaultConfig.SOL
          (1000000000 * 4 / 5) 1 1 5).success,
        (executeSwapAsync defaultConfig envDust "TOK" defaultConfig.SOL
          (1000000000 * 4 / 5) 1 1 5).value,
        ⟨1000000000, slippageBps 1 0, 1⟩ ::
          (executeSwapAsync defaultConfig envDust "TOK" defaultConfig.SOL
            (1000000000 * 4 / 5) 1 1 5).calls⟩ ∧
    (0 ≤ (1 : ℚ) → slippageBps 1 0 ≤ slippageBps 1 1) :=
  c8_dust_retry_amount_reduction defaultConfig envDust "TOK"
    defaultConfig.SOL 1000000000 1 0 5 ⟨4000000, 1⟩ rfl
    (by norm_num [defaultConfig]) rfl (by norm_num)
    (by simp [defaultConfig]) (by norm_num) (by norm_num)

/-! ### C1 — per-position sell mutual exclusion -/

/-- Invariant of the lock protocol: a task in the guarded section
implies the lock is held, and at most one task is in the guarded
section. -/
theorem lockReachable_inv {n : ℕ} {s : LockSystem n}
    (h : LockReachable n s) :
    (∀ i, s.pc i = .inCrit → s.lock = true) ∧
    (∀ i j, s.pc i = .inCrit → s.pc j = .inCrit → i = j) := by
  induction h with
  | init =>
    refine ⟨fun i hi => ?_, fun i j hi _ => ?_⟩ <;>
      simp [LockSystem.init] at hi
  | step hr hstep ih =>
    cases hstep with
    | acquire i hidle hlock =>
      refine ⟨fun j _ => rfl, fun j k hj hk => ?_⟩
      simp only [Function.update_apply] at hj hk
      by_cases hji : j = i
      · by_cases hki : k = i
        · rw [hji, hki]
        · rw [if_neg hki] at hk
          exact absurd (ih.1 k hk) (by rw [hlock]; simp)
      · rw [if_neg hji] at hj
        exact absurd (ih.1 j hj) (by rw [hlock]; simp)
    | reject i hidle hlock =>
      refine ⟨fun j hj => hlock, fun j k hj hk => ?_⟩
      simp only [Function.update_apply] at hj hk
      by_cases hji : j = i
      · rw [if_pos hji] at hj
        simp at hj
      · by_cases hki : k = i
        · rw [if_pos hki] at hk
          simp at hk
        · rw [if_neg hji] at hj
          rw [if_neg hki] at hk
          exact ih.2 j k hj hk
    | release i hcrit =>
      refine ⟨fun j hj => ?_, fun j k hj hk => ?_⟩ <;>
        · exfalso
          simp only [Function.update_apply] at hj
          by_cases hji : j = i
          · rw [if_pos hji] at hj
            simp at hj
          · rw [if_neg hji] at hj
            exact hji (ih.2 j i hj hcrit)
    | restart i hret =>
      refine ⟨fun j hj => ?_, fun j k hj hk => ?_⟩
      · simp only [Function.update_apply] at hj
        by_cases hji : j = i
        · rw [if_pos hji] at hj
          simp at hj
        · rw [if_neg hji] at hj
          exact ih.1 j hj
      · simp only [Function.update_apply] at hj hk
        by_cases hji : j = i
        · rw [if_pos hji] at hj
          simp at hj
        · by_cases hki : k = i
          · rw [if_pos hki] at hk
            simp at hk
          · rw [if_neg hji] at hj
            rw [if_neg hki] at hk
            exact ih.2 j k hj hk

/-- The lock observable of `sell_token_async` is restored to its entry
value on every return path (shared helper for C1). -/
theorem sellTokenAsync_lock_restored (cfg : Config) (env : SellEnv)
    (st : PosState) (p s : ℚ) (k : ℕ) :
    (sellTokenAsync cfg env st p s k).2.1.lock = st.lock := by
  induction st, p, s, k using sellTokenAsync.induct cfg env with
  | _ =>
    rw [sellTokenAsync]
    simp_all
    try (split_ifs <;> (try (exfalso; linarith)) <;> simp_all)

/-- Concrete environment where the balance is present and the single
swap succeeds. -/
def envSellOk : SellEnv :=
  { balance := fun _ => (1000000, 1), volumeAlert := fun _ => false,
    now := fun _ => 0, swap := fun _ => (true, some 1) }

/-- Concrete environment where every swap attempt fails. -/
def envSellFail : SellEnv :=
  { balance := fun _ => (1000000, 1), volumeAlert := fun _ => false,
    now := fun _ => 0, swap := fun _ => (false, none) }

set_option maxHeartbeats 1000000 in
/-- Claim C1, counterexample.  The claim includes "the exit evaluator
signals no sell while the guard is true".  That holds for the base
`check_sell_conditions` (line 942), but the evaluator the price poller
actually calls is `check_enhanced_sell_conditions`, whose multi-level-TP
branch (lines 477-481) never consults `auto_sell_locks`: with the lock
held, multi-TP enabled and `percent_change = 35`, it still signals a
25% sell.  (The sell call itself is then rejected by the guard, so
mutual exclusion is preserved — see the amended theorem.) -/
theorem c1_counterexample :
    (checkEnhancedSellConditions defaultConfig true true
      { TrackingData.init 1 0 with percent_change := 35 } false 0).1 =
      ⟨true, .tpLevelReached 30, 25⟩ := by
  norm_num [checkEnhancedSellConditions, checkMultiLevelTp, multiTpLoop,
    defaultConfig, TrackingData.init]

/-- Claim C1, amended: at most one sell executes per position at any
instant.  (1) A call to `sell_token_async` while the guard is true
returns `False` immediately, leaves the state untouched and executes
zero swaps.  (2) The base evaluator `check_sell_conditions` returns
`(False, "Already selling", 0)` while the guard is true (the enhanced
evaluator's multi-TP/volume branches may still signal — see the
counterexample — but the guarded sell call makes the signal harmless).
(3) Every completed `sell_token_async` call restores the guard to its
entry value, so the guard goes false → true → false.  (4) In the
interleaving model of the lock protocol (test-and-set atomic because
lines 509-514 contain no suspension point), every reachable state has
at most one task inside the guarded section. -/
theorem c1_per_position_sell_mutual_exclusion :
    (∀ (cfg : Config) (env : SellEnv) (st : PosState) (p s : ℚ) (k : ℕ),
      st.lock = true → sellTokenAsync cfg env st p s k = (false, st, 0)) ∧
    (∀ (cfg : Config) (d : TrackingData) (now : ℚ),
      (checkSellConditions cfg true true d now).1 =
        ⟨false, .alreadySelling, 0⟩) ∧
    (∀ (cfg : Config) (env : SellEnv) (st : PosState) (p s : ℚ) (k : ℕ),
      (sellTokenAsync cfg env st p s k).2.1.lock = st.lock) ∧
    (∀ (n : ℕ) (s : LockSystem n), LockReachable n s →
      ∀ i j, s.pc i = .inCrit → s.pc j = .inCrit → i = j) := by
  refine ⟨?_, ?_, ?_, ?_⟩
  · intro cfg env st p s k h
    rw [sellTokenAsync]
    simp [h]
  · intro cfg d now
    rfl
  · intro cfg env st p s k
    exact sellTokenAsync_lock_restored cfg env st p s k
  · intro n s h
    exact (lockReachable_inv h).2

/-- A reachable two-task lock state with task 0 in the guarded
section. -/
def lockedState : LockSystem 2 :=
  ⟨true, Function.update (fun _ => SellPc.idle) 0 .inCrit⟩

/-- Witness for `c1_per_position_sell_mutual_exclusion` at concrete
inputs: a guarded call returns `False` with zero swaps; the base
evaluator reports "Already selling"; an unguarded call restores the
guard; in a reachable state with task 0 critical, any critical task is
task 0. -/
theorem c1_witness :
    sellTokenAsync defaultConfig envSellOk ⟨true, none⟩ 50 1 0 =
      (false, ⟨true, none⟩, 0) ∧
    (checkSellConditions defaultConfig true true (TrackingData.init 1 0)
      0).1 = ⟨false, .alreadySelling, 0⟩ ∧
    (sellTokenAsync defaultConfig envSellOk ⟨false, none⟩ 50 1 0).2.1.lock =
      false ∧
    (0 : Fin 2) = 0 := by
  have hreach : LockReachable 2 lockedState :=
    LockReachable.step LockReachable.init
      (LockStep.acquire (LockSystem.init 2) 0 rfl rfl)
  refine ⟨c1_per_position_sell_mutual_exclusion.1 defaultConfig envSellOk
      ⟨true, none⟩ 50 1 0 rfl,
    c1_per_position_sell_mutual_exclusion.2.1 defaultConfig
      (TrackingData.init 1 0) 0,
    c1_per_position_sell_mutual_exclusion.2.2.1 defaultConfig envSellOk
      ⟨false, none⟩ 50 1 0,
    c1_per_position_sell_mutual_exclusion.2.2.2 2 lockedState hreach 0 0
      (by simp [lockedState]) (by simp [lockedState])⟩

/-! ### C3 — sold fraction: monotone, bounded -/

/-- A non-firing `check_multi_level_tp` loop signals a zero sell
percentage. -/
theorem multiTpLoop_no_fire_pct (sold change : ℚ) :
    ∀ (acc : ℚ) (ls : List (ℤ × ℚ)),
      (multiTpLoop sold change acc ls).should_sell = false →
      (multiTpLoop sold change acc ls).sell_percentage = 0 := by
  intro acc ls
  induction ls generalizing acc with
  | nil => intro _; rfl
  | cons hd tl ih =>
    obtain ⟨p, t⟩ := hd
    intro h
    by_cases hc : sold < acc + (p : ℚ) ∧ change ≥ t
    · rw [multiTpLoop, if_pos hc] at h
      cases h
    · rw [multiTpLoop, if_neg hc] at h ⊢
      exact ih _ h

/-- If the current change lies below every remaining trigger, the level
loop does not fire. -/
theorem multiTpLoop_no_trigger (sold change : ℚ) :
    ∀ (acc : ℚ) (ls : List (ℤ × ℚ)),
      (∀ l ∈ ls, change < l.2) →
      multiTpLoop sold change acc ls = ⟨false, .noTpLevelsHit, 0⟩ := by
  intro acc ls
  induction ls generalizing acc with
  | nil => intro _; rfl
  | cons hd tl ih =>
    obtain ⟨p, t⟩ := hd
    intro h
    rw [multiTpLoop, if_neg, ih]
    · intro l hl
      exact h l (List.mem_cons_of_mem _ hl)
    · intro hc
      exact absurd hc.2 (not_le.mpr (h (p, t) (List.mem_cons_self _ _)))

/-- The cumulative-percentage checkpoints of a level list, starting
from a given accumulator: the values `sold_percentage` can take when
driven by the level loop alone. -/
def cumSums (acc : ℚ) : List (ℤ × ℚ) → List ℚ
  | [] => [acc]
  | l :: rest => acc :: cumSums (acc + (l.1 : ℚ)) rest

theorem self_mem_cumSums (acc : ℚ) (ls : List (ℤ × ℚ)) :
    acc ∈ cumSums acc ls := by
  cases ls <;> simp [cumSums]

theorem cumSums_ge (ls : List (ℤ × ℚ))
    (hpos : ∀ l ∈ ls, (0 : ℚ) < (l.1 : ℚ)) :
    ∀ (acc : ℚ), ∀ x ∈ cumSums acc ls, acc ≤ x := by
  induction ls with
  | nil =>
    intro acc x hx
    simp [cumSums] at hx
    rw [hx]
  | cons hd tl ih =>
    intro acc x hx
    rcases (by simpa [cumSums] using hx :
        x = acc ∨ x ∈ cumSums (acc + (hd.1 : ℚ)) tl) with h | h
    · rw [h]
    · have h1 : acc + (hd.1 : ℚ) ≤ x :=
        ih (fun l hl => hpos l (List.mem_cons_of_mem _ hl)) _ x h
      have h2 : (0 : ℚ) < (hd.1 : ℚ) := hpos hd (List.mem_cons_self _ _)
      linarith

theorem cumSums_le (ls : List (ℤ × ℚ))
    (hpos : ∀ l ∈ ls, (0 : ℚ) < (l.1 : ℚ)) :
    ∀ (acc : ℚ), ∀ x ∈ cumSums acc ls,
      x ≤ acc + (ls.map (fun l => ((l.1 : ℤ) : ℚ))).sum := by
  induction ls with
  | nil =>
    intro acc x hx
    simp [cumSums] at hx
    simp [hx]
  | cons hd tl ih =>
    intro acc x hx
    have hsum : (0 : ℚ) ≤ (tl.map (fun l => ((l.1 : ℤ) : ℚ))).sum := by
      apply List.sum_nonneg
      intro y hy
      obtain ⟨l, hl, rfl⟩ := List.mem_map.mp hy
      exact le_of_lt (hpos l (List.mem_cons_of_mem _ hl))
    rcases (by simpa [cumSums] using hx :
        x = acc ∨ x ∈ cumSums (acc + (hd.1 : ℚ)) tl) with h | h
    · have h2 : (0 : ℚ) < (hd.1 : ℚ) := hpos hd (List.mem_cons_self _ _)
      rw [h]
      simp only [List.map_cons, List.sum_cons]
      linarith
    · have := ih (fun l hl => hpos l (List.mem_cons_of_mem _ hl))
        (acc + (hd.1 : ℚ)) x h
      simp only [List.map_cons, List.sum_cons]
      linarith

/-- One firing step of the level loop moves `sold` to the next
checkpoint: with positive level percentages and non-decreasing
triggers, if `sold` is a checkpoint and the loop fires, then
`sold + sell_percentage` is again a checkpoint. -/
theorem multiTpLoop_fire_step (change : ℚ) :
    ∀ (ls : List (ℤ × ℚ)) (acc sold : ℚ),
      (∀ l ∈ ls, (0 : ℚ) < (l.1 : ℚ)) →
      ls.Pairwise (fun a b => a.2 ≤ b.2) →
      sold ∈ cumSums acc ls →
      (multiTpLoop sold change acc ls).should_sell = true →
      sold + (multiTpLoop sold change acc ls).sell_percentage ∈
        cumSums acc ls := by
  intro ls
  induction ls with
  | nil =>
    intro acc sold _ _ _ hfire
    rw [multiTpLoop] at hfire
    cases hfire
  | cons hd tl ih =>
    obtain ⟨p, t⟩ := hd
    intro acc sold hpos hsorted hmem hfire
    have hpos' : ∀ l ∈ tl, (0 : ℚ) < (l.1 : ℚ) :=
      fun l hl => hpos l (List.mem_cons_of_mem _ hl)
    by_cases hc : sold < acc + ((p : ℤ) : ℚ) ∧ change ≥ t
    · simp only [multiTpLoop, if_pos hc]
      have hacc : sold = acc := by
        rcases (by simpa [cumSums] using hmem :
            sold = acc ∨ sold ∈ cumSums (acc + ((p : ℤ) : ℚ)) tl) with h | h
        · exact h
        · have := cumSums_ge tl hpos' _ sold h
          exfalso
          linarith [hc.1]
      rw [hacc]
      exact List.mem_cons_of_mem _ (self_mem_cumSums _ _)
    · simp only [multiTpLoop, if_neg hc] at hfire ⊢
      rcases (by simpa [cumSums] using hmem :
          sold = acc ∨ sold ∈ cumSums (acc + ((p : ℤ) : ℚ)) tl) with h | h
      · exfalso
        have hlt : sold < acc + ((p : ℤ) : ℚ) := by
          have := hpos (p, t) (List.mem_cons_self _ _)
          rw [h]
          simp only at this
          linarith
        have ht : change < t := by
          by_contra hcc
          exact hc ⟨hlt, le_of_not_lt hcc⟩
        have hall : ∀ l ∈ tl, change < l.2 := by
          intro l hl
          have := (List.pairwise_cons.mp hsorted).1 l hl
          calc change < t := ht
            _ ≤ l.2 := this
        rw [multiTpLoop_no_trigger sold change _ tl hall] at hfire
        cases hfire
      · exact List.mem_cons_of_mem _
          (ih _ sold hpos' (List.pairwise_cons.mp hsorted).2 h hfire)

/-- One auto-sell bookkeeping step driven by the multi-level-TP
evaluator: the evaluator runs on the current sold fraction and the
tick's `percent_change`, and the signalled `sell_percentage` is added
to the sold fraction (the `sold_percentage += percentage` of
`sell_token_async`, line 584). -/
def tpStep (cfg : Config) (s change : ℚ) : ℚ :=
  s + (checkMultiLevelTp cfg
    { TrackingData.init 1 0 with
      sold_percentage := s, percent_change := change }).sell_percentage

/-- A sequence of evaluator-driven sells over a list of tick ROIs. -/
def tpRun (cfg : Config) (changes : List ℚ) (s : ℚ) : ℚ :=
  changes.foldl (tpStep cfg) s

/-- The sold fraction stays on the checkpoint list along any
evaluator-driven run. -/
theorem tpRun_mem (cfg : Config) (changes : List ℚ)
    (he : cfg.ENABLE_MULTI_TP = true)
    (hpos : ∀ l ∈ cfg.TP_LEVELS, (0 : ℚ) < (l.1 : ℚ))
    (hsorted : cfg.TP_LEVELS.Pairwise (fun a b => a.2 ≤ b.2)) :
    ∀ s, s ∈ cumSums 0 cfg.TP_LEVELS →
      tpRun cfg changes s ∈ cumSums 0 cfg.TP_LEVELS := by
  induction changes with
  | nil => intro s hs; exact hs
  | cons c cs ih =>
    intro s hs
    have hstep : tpStep cfg s c ∈ cumSums 0 cfg.TP_LEVELS := by
      unfold tpStep checkMultiLevelTp
      rw [if_neg (by rw [he]; simp)]
      by_cases hfire : (multiTpLoop s c 0 cfg.TP_LEVELS).should_sell = true
      · simpa using multiTpLoop_fire_step c cfg.TP_LEVELS 0 s hpos hsorted
          (by simpa using hs) hfire
      · rw [multiTpLoop_no_fire_pct s c 0 cfg.TP_LEVELS
          (Bool.not_eq_true _ ▸ hfire)]
        simpa using hs
    exact ih (tpStep cfg s c) hstep

set_option maxHeartbeats 1000000 in
/-- Shared helper: `sell_token_async` never decreases
`sold_percentage` (the only write adds a validated positive
percentage). -/
theorem sellTokenAsync_sold_mono (cfg : Config) (env : SellEnv)
    (st : PosState) (p s : ℚ) (k : ℕ) :
    ∀ d d', st.tracking = some d →
      (sellTokenAsync cfg env st p s k).2.1.tracking = some d' →
      d.sold_percentage ≤ d'.sold_percentage := by
  induction st, p, s, k using sellTokenAsync.induct cfg env with
  | case1 st p s k h =>
    intro d d' hd hd'
    rw [sellTokenAsync] at hd'
    simp [h] at hd'
    rw [hd] at hd'
    cases hd'
    exact le_refl _
  | case2 st p s k h1 h2 =>
    intro d d' hd hd'
    rw [sellTokenAsync] at hd'
    simp [h1, h2] at hd'
    rw [hd] at hd'
    cases hd'
    exact le_refl _
  | case3 st p s k h1 h2 h3 =>
    intro d d' hd hd'
    rw [sellTokenAsync] at hd'
    simp [h1, h2, h3] at hd'
    rw [hd] at hd'
    cases hd'
    exact le_refl _
  | case4 st p s k h1 h2 h3 h4 =>
    intro d d' hd hd'
    rw [sellTokenAsync] at hd'
    simp [h1, h2, h3, h4] at hd'
    have hp1 : (1 : ℚ) ≤ p := by
      by_contra hcon
      exact h2 (Or.inl (lt_of_not_le hcon))
    have hsold : (checkEnhancedSellConditions cfg true true d
        (env.volumeAlert k) (env.now k)).2.sold_percentage =
        d.sold_percentage :=
      checkEnhanced_sold_frame cfg true true d _ _
    by_cases hp : p < 100
    · rw [soldUpdate, if_pos hp] at hd'
      simp only [exitReasonUpdate, hd] at hd'
      simp at hd'
      have hval : d'.sold_percentage =
          (checkEnhancedSellConditions cfg true true d
            (env.volumeAlert k) (env.now k)).2.sold_percentage + p := by
        rw [← hd']
      rw [hval, hsold]
      linarith
    · rw [soldUpdate, if_neg hp] at hd'
      by_cases hp100 : p = 100
      · rw [if_pos hp100] at hd'
        simp at hd'
      · rw [if_neg hp100] at hd'
        simp only [exitReasonUpdate, hd] at hd'
        simp at hd'
        have hval : d'.sold_percentage =
            (checkEnhancedSellConditions cfg true true d
              (env.volumeAlert k) (env.now k)).2.sold_percentage := by
          rw [← hd']
        rw [hval, hsold]
  | case5 st p s k h1 h2 h3 h4 h5 ih =>
    intro d d' hd hd'
    rw [sellTokenAsync] at hd'
    simp [h1, h2, h3, h4, h5] at hd'
    have hsold : (checkEnhancedSellConditions cfg true true d
        (env.volumeAlert k) (env.now k)).2.sold_percentage =
        d.sold_percentage :=
      checkEnhanced_sold_frame cfg true true d _ _
    have := ih ((checkEnhancedSellConditions cfg true true d
        (env.volumeAlert k) (env.now k)).2) d'
      (by simp [exitReasonUpdate, hd]) hd'
    linarith [this, le_of_eq hsold.symm]
  | case6 st p s k h1 h2 h3 h4 h5 h6 ih =>
    intro d d' hd hd'
    rw [sellTokenAsync] at hd'
    simp [h1, h2, h3, h4, h5, h6] at hd'
    have hsold : (checkEnhancedSellConditions cfg true true d
        (env.volumeAlert k) (env.now k)).2.sold_percentage =
        d.sold_percentage :=
      checkEnhanced_sold_frame cfg true true d _ _
    have := ih ((checkEnhancedSellConditions cfg true true d
        (env.volumeAlert k) (env.now k)).2) d'
      (by simp [exitReasonUpdate, hd]) hd'
    linarith [this, le_of_eq hsold.symm]
  | case7 st p s k h1 h2 h3 h4 h5 h6 =>
    intro d d' hd hd'
    rw [sellTokenAsync] at hd'
    simp [h1, h2, h3, h4, h5, h6] at hd'
    simp only [exitReasonUpdate, hd] at hd'
    simp at hd'
    rw [← hd']
    rw [checkEnhanced_sold_frame cfg true true d _ _]

/-- Configuration whose TP levels sum to 120% (freely configurable via
the `TP_LEVELS` string). -/
def cfgWide : Config :=
  { defaultConfig with TP_LEVELS := [(60, 10), (60, 20)] }

/-- A position at +25% ROI with nothing sold yet. -/
def dWide : TrackingData :=
  { TrackingData.init 1 0 with percent_change := 25 }

/-- The same position after the first 60% evaluator-driven sell. -/
def dWide60 : TrackingData := { dWide with sold_percentage := 60 }

set_option maxHeartbeats 1000000 in
/-- Claim C3, counterexample.  The claim asserts `sold_percentage`
never exceeds 100 "under every configured take-profit level list and
every sequence of full or partial sells".  With `TP_LEVELS` configured
as `60:10,60:20` (cumulative 120) and the price at +25%, the evaluator
signals a 60% sell twice in a row and `sell_token_async`'s
`sold_percentage += percentage` update drives the sold fraction to
120 > 100. -/
theorem c3_counterexample :
    checkMultiLevelTp cfgWide dWide = ⟨true, .tpLevelReached 10, 60⟩ ∧
    (sellTokenAsync cfgWide envSellOk ⟨false, some dWide⟩ 60 1 0).2.1.tracking =
      some dWide60 ∧
    checkMultiLevelTp cfgWide dWide60 = ⟨true, .tpLevelReached 20, 60⟩ ∧
    (sellTokenAsync cfgWide envSellOk ⟨false, some dWide60⟩ 60 1 0).2.1.tracking =
      some { dWide60 with sold_percentage := 120 } ∧
    ¬((120 : ℚ) ≤ 100) := by
  refine ⟨?_, ?_, ?_, ?_, by norm_num⟩
  · norm_num [checkMultiLevelTp, multiTpLoop, cfgWide, defaultConfig,
      dWide, TrackingData.init]
  · rw [sellTokenAsync]
    norm_num [envSellOk, exitReasonUpdate, soldUpdate,
      checkEnhancedSellConditions, checkMultiLevelTp, multiTpLoop,
      cfgWide, defaultConfig, dWide, dWide60, TrackingData.init]
  · norm_num [checkMultiLevelTp, multiTpLoop, cfgWide, defaultConfig,
      dWide, dWide60, TrackingData.init]
  · rw [sellTokenAsync]
    norm_num [envSellOk, exitReasonUpdate, soldUpdate,
      checkEnhancedSellConditions, checkMultiLevelTp, multiTpLoop,
      cfgWide, defaultConfig, dWide, dWide60, TrackingData.init]

/-- Claim C3, amended: (1) `sold_percentage` is monotonically
non-decreasing: every `sell_token_async` call leaves it no smaller
than it was.  (2) The 100-bound holds for evaluator-driven sells when
the configured levels are well-formed — positive percentages,
non-decreasing profit triggers, cumulative sum at most 100 (as the
defaults are): any run of multi-TP-signalled sells starting from 0
stays at most 100.  Without those provisos the bound fails (see the
counterexample). -/
theorem c3_sold_monotone_and_tp_bounded :
    (∀ (cfg : Config) (env : SellEnv) (st : PosState) (p s : ℚ) (k : ℕ)
        (d d' : TrackingData), st.tracking = some d →
      (sellTokenAsync cfg env st p s k).2.1.tracking = some d' →
      d.sold_percentage ≤ d'.sold_percentage) ∧
    (∀ (cfg : Config) (changes : List ℚ),
      cfg.ENABLE_MULTI_TP = true →
      (∀ l ∈ cfg.TP_LEVELS, (0 : ℚ) < (l.1 : ℚ)) →
      cfg.TP_LEVELS.Pairwise (fun a b => a.2 ≤ b.2) →
      (cfg.TP_LEVELS.map (fun l => ((l.1 : ℤ) : ℚ))).sum ≤ 100 →
      tpRun cfg changes 0 ≤ 100) := by
  constructor
  · intro cfg env st p s k d d' hd hd'
    exact sellTokenAsync_sold_mono cfg env st p s k d d' hd hd'
  · intro cfg changes he hpos hsorted hsum
    have hmem := tpRun_mem cfg changes he hpos hsorted 0
      (self_mem_cumSums 0 cfg.TP_LEVELS)
    have := cumSums_le cfg.TP_LEVELS hpos 0 _ hmem
    linarith

set_option maxHeartbeats 1000000 in
/-- Witness for `c3_sold_monotone_and_tp_bounded`: a concrete
successful 30% sell keeps the sold fraction non-decreasing, and the
default level list over the ROI path +35% then +55% stays within
100. -/
theorem c3_witness :
    dWide.sold_percentage ≤ dWide.sold_percentage + 30 ∧
    tpRun defaultConfig [35, 55] 0 ≤ 100 := by
  constructor
  · have h := c3_sold_monotone_and_tp_bounded.1 cfgWide envSellOk
      ⟨false, some dWide⟩ 30 1 0 dWide
      { (checkEnhancedSellConditions cfgWide true true dWide false 0).2 with
        sold_percentage :=
          (checkEnhancedSellConditions cfgWide true true dWide false
            0).2.sold_percentage + 30 }
      rfl ?_
    · calc dWide.sold_percentage
          ≤ _ := h
        _ ≤ dWide.sold_percentage + 30 := by
          rw [checkEnhanced_sold_frame]
    · rw [sellTokenAsync]
      norm_num [envSellOk, exitReasonUpdate, soldUpdate, envSellOk]
  · exact c3_sold_monotone_and_tp_bounded.2 defaultConfig [35, 55] rfl
      (by norm_num [defaultConfig])
      (by norm_num [defaultConfig, List.pairwise_cons])
      (by norm_num [defaultConfig])

/-! ### C7 — trailing stop monotone -/

/-- The value lines 956-960 assign to `trailing_stop_price`:
`buy_price * (1 + (high_roi - TRAILING_STOP)/100)` computed from the
current high-water ROI. -/
def stopFor (cfg : Config) (d : TrackingData) : ℚ :=
  d.buy_price * (1 + (highRoiOf d - cfg.TRAILING_STOP) / 100)

theorem stopFor_eq (cfg : Config) (d : TrackingData)
    (hb : d.buy_price ≠ 0) :
    stopFor cfg d = d.high_price - d.buy_price * cfg.TRAILING_STOP / 100 := by
  unfold stopFor highRoiOf
  field_simp
  ring

theorem tailArmUpdate_of_armed (cfg : Config) (d : TrackingData)
    (hr : ℚ) (harm : d.trailing_stop_price ≠ 0) :
    tailArmUpdate cfg d hr = d := by
  unfold tailArmUpdate
  rw [if_neg]
  intro hc
  exact harm hc.2.2

theorem lateArmUpdate_of_armed (cfg : Config) (d : TrackingData)
    (pc : ℚ) (harm : d.trailing_stop_price ≠ 0) :
    lateArmUpdate cfg d pc = d := by
  unfold lateArmUpdate
  rw [if_neg]
  intro hc
  exact harm hc

/-- While the stop is armed, the tail of the evaluator never changes
the tracking state. -/
theorem checkSellTail_of_armed (cfg : Config) (d : TrackingData)
    (hr now : ℚ) (harm : d.trailing_stop_price ≠ 0) :
    (checkSellTail cfg d hr now).2 = d := by
  unfold checkSellTail
  rw [tailArmUpdate_of_armed cfg d hr harm]
  split_ifs <;> rfl

theorem stopFor_mono (cfg : Config) {a b : TrackingData}
    (hb : 0 < a.buy_price) (hbuy : b.buy_price = a.buy_price)
    (hhigh : a.high_price ≤ b.high_price) :
    stopFor cfg a ≤ stopFor cfg b := by
  rw [stopFor_eq cfg a (ne_of_gt hb),
    stopFor_eq cfg b (by rw [hbuy]; exact ne_of_gt hb), hbuy]
  linarith

/-- The combined mutating stage of the evaluator only raises an armed
trailing stop: the stop never decreases, it stays at most the
`stopFor` bound, and `buy_price` is untouched. -/
theorem watermarkStage_trailing_mono (cfg : Config) (d : TrackingData)
    (hb : 0 < d.buy_price) (harm : 0 < d.trailing_stop_price)
    (hinv : d.trailing_stop_price ≤ stopFor cfg d) :
    d.trailing_stop_price ≤ (watermarkStage cfg d).trailing_stop_price ∧
    (watermarkStage cfg d).trailing_stop_price ≤
      stopFor cfg (watermarkStage cfg d) ∧
    (watermarkStage cfg d).buy_price = d.buy_price ∧
    0 < (watermarkStage cfg d).trailing_stop_price := by
  unfold watermarkStage newHighUpdate trailingStopUpdate
  split_ifs with h1 h2 h3
  · refine ⟨hinv, ?_, rfl, lt_of_lt_of_le harm hinv⟩
    show stopFor cfg d ≤ stopFor cfg _
    exact stopFor_mono cfg hb rfl
      (le_of_lt (show d.high_price < d.current_price from h2))
  · refine ⟨hinv, ?_, rfl, lt_of_lt_of_le harm hinv⟩
    show stopFor cfg d ≤ stopFor cfg _
    exact stopFor_mono cfg hb rfl (le_refl d.high_price)
  · refine ⟨le_refl _, ?_, rfl, harm⟩
    show d.trailing_stop_price ≤ stopFor cfg _
    exact hinv.trans (stopFor_mono cfg hb rfl
      (le_of_lt (show d.high_price < d.current_price from h3)))
  · exact ⟨le_refl _, hinv, rfl, harm⟩

/-- One evaluation of `check_sell_conditions` only raises an armed
trailing stop. -/
theorem checkSell_trailing_mono (cfg : Config) (tracked lock : Bool)
    (d : TrackingData) (now : ℚ)
    (hb : 0 < d.buy_price) (harm : 0 < d.trailing_stop_price)
    (hinv : d.trailing_stop_price ≤ stopFor cfg d) :
    d.trailing_stop_price ≤
      (checkSellConditions cfg tracked lock d now).2.trailing_stop_price ∧
    (checkSellConditions cfg tracked lock d now).2.trailing_stop_price ≤
      stopFor cfg (checkSellConditions cfg tracked lock d now).2 ∧
    (checkSellConditions cfg tracked lock d now).2.buy_price =
      d.buy_price ∧
    0 < (checkSellConditions cfg tracked lock d now).2.trailing_stop_price := by
  have hw := watermarkStage_trailing_mono cfg d hb harm hinv
  have hwarm : (watermarkStage cfg d).trailing_stop_price ≠ 0 :=
    ne_of_gt hw.2.2.2
  unfold checkSellConditions
  split_ifs <;>
    first
      | exact ⟨le_refl _, hinv, rfl, harm⟩
      | exact hw
      | (rw [lateArmUpdate_of_armed cfg (watermarkStage cfg d)
            d.percent_change hwarm]
         exact hw)
      | (rw [checkSellTail_of_armed cfg (watermarkStage cfg d)
            (highRoiOf d) now hwarm]
         exact hw)

/-- The poller's per-tick update leaves the stop and the buy price
alone and only raises the high watermark, hence preserves the armed
stop's bound. -/
theorem trackerUpdate_trailing (cfg : Config) (d : TrackingData)
    (p now : ℚ) (hb : 0 < d.buy_price)
    (hinv : d.trailing_stop_price ≤ stopFor cfg d) :
    (trackerUpdate d p now).trailing_stop_price =
      d.trailing_stop_price ∧
    (trackerUpdate d p now).buy_price = d.buy_price ∧
    (trackerUpdate d p now).trailing_stop_price ≤
      stopFor cfg (trackerUpdate d p now) := by
  have hbne : d.buy_price ≠ 0 := ne_of_gt hb
  unfold trackerUpdate pollerHighUpdate pollerLowUpdate
  split_ifs with h1 h2 h3 h4 <;> refine ⟨rfl, rfl, ?_⟩ <;>
    rw [stopFor_eq _ _ hbne] at hinv <;>
    rw [stopFor_eq] <;>
    first
      | (simp only; linarith)
      | simpa using hbne

/-- One full poller tick (tracker update followed by the enhanced
evaluator) only raises an armed trailing stop. -/
theorem tick_trailing_mono (cfg : Config) (lock va : Bool)
    (d : TrackingData) (p now : ℚ)
    (hb : 0 < d.buy_price) (harm : 0 < d.trailing_stop_price)
    (hinv : d.trailing_stop_price ≤ stopFor cfg d) :
    d.trailing_stop_price ≤
      (tick cfg lock va d p now).2.trailing_stop_price ∧
    (tick cfg lock va d p now).2.trailing_stop_price ≤
      stopFor cfg (tick cfg lock va d p now).2 ∧
    (tick cfg lock va d p now).2.buy_price = d.buy_price ∧
    0 < (tick cfg lock va d p now).2.trailing_stop_price := by
  have htr := trackerUpdate_trailing cfg d p now hb hinv
  have hb' : 0 < (trackerUpdate d p now).buy_price := by
    rw [htr.2.1]
    exact hb
  have harm' : 0 < (trackerUpdate d p now).trailing_stop_price := by
    rw [htr.1]
    exact harm
  unfold tick checkEnhancedSellConditions
  split_ifs
  · exact ⟨le_of_eq htr.1.symm, htr.2.2, htr.2.1, harm'⟩
  · exact ⟨le_of_eq htr.1.symm, htr.2.2, htr.2.1, harm'⟩
  · have hc := checkSell_trailing_mono cfg true lock
      (trackerUpdate d p now) now hb' harm' htr.2.2
    refine ⟨le_trans (le_of_eq htr.1.symm) hc.1, hc.2.1, ?_, hc.2.2.2⟩
    rw [hc.2.2.1, htr.2.1]

/-- Claim C7: while a position's trailing stop is armed (positive, and
within its `stopFor` bound — the state every arming path establishes),
`trailing_stop_price` is monotonically non-decreasing over any
sequence of poller ticks: each tick either raises it with a new high
or leaves it unchanged, and no tick ever resets it downward. -/
theorem c7_trailing_stop_price_monotone (cfg : Config) (lock : Bool)
    (d : TrackingData) (inputs : List (ℚ × ℚ × Bool))
    (hb : 0 < d.buy_price) (harm : 0 < d.trailing_stop_price)
    (hinv : d.trailing_stop_price ≤ stopFor cfg d) :
    d.trailing_stop_price ≤
      (runTicks cfg lock d inputs).trailing_stop_price ∧
    0 < (runTicks cfg lock d inputs).trailing_stop_price ∧
    (runTicks cfg lock d inputs).trailing_stop_price ≤
      stopFor cfg (runTicks cfg lock d inputs) := by
  induction inputs generalizing d with
  | nil => exact ⟨le_refl _, harm, hinv⟩
  | cons i is ih =>
    have ht := tick_trailing_mono cfg lock i.2.2 d i.1 i.2.1 hb harm hinv
    have hb' : 0 < (tick cfg lock i.2.2 d i.1 i.2.1).2.buy_price := by
      rw [ht.2.2.1]
      exact hb
    have := ih (tick cfg lock i.2.2 d i.1 i.2.1).2 hb' ht.2.2.2 ht.2.1
    exact ⟨le_trans ht.1 this.1, this.2.1, this.2.2⟩

set_option maxHeartbeats 1000000 in
/-- Witness for `c7_trailing_stop_price_monotone`: the armed C4 state
(stop 1.60 on a 1.75 high) stays at 1.60 through the 1.58 tick. -/
theorem c7_witness :
    dC4.trailing_stop_price ≤
      (runTicks cfgTrailing false dC4 [(79 / 50, 20, false)]).trailing_stop_price ∧
    0 < (runTicks cfgTrailing false dC4 [(79 / 50, 20, false)]).trailing_stop_price ∧
    (runTicks cfgTrailing false dC4 [(79 / 50, 20, false)]).trailing_stop_price ≤
      stopFor cfgTrailing
        (runTicks cfgTrailing false dC4 [(79 / 50, 20, false)]) :=
  c7_trailing_stop_price_monotone cfgTrailing false dC4
    [(79 / 50, 20, false)] (by norm_num [dC4])
    (by norm_num [dC4])
    (by norm_num [stopFor, highRoiOf, dC4, cfgTrailing, defaultConfig])

end TelegramCT
